import Mathlib

/-!
Verification of the natural-language prompt parser of `SolidworksPromptApp.py`
(functions `convert_to_meters`, `detect_units`, `extract_dimension`,
`extract_all_numbers`, `parse_prompt`; class `ParsedShape`).

Embedding notes:
* Prompts are lists of characters; Python's `str.lower`, `str.strip`,
  `x in s` (substring test) and the specific regular expressions used by
  the parser are implemented directly on `List Char`.  The regular
  expressions of the source are simple enough that their Python
  (leftmost-match, ordered-alternation, greedy) semantics is reproduced
  exactly by straight-line matching functions; every place where
  backtracking could matter (the optional `of|=|:` separator and the
  optional unit group followed by a keyword literal) is modelled with the
  same ordered alternative-then-skip search that the `re` engine performs.
* Every numeric value the parser manipulates is a nonnegative decimal
  fraction (digit literals, the unit factors 0.001/0.01/1/0.0254/0.3048,
  halving of a diameter, and scaling by 0.4), so numbers are modelled as
  exact decimal fractions `num / 10 ^ exp` in canonical form (trailing
  zeros stripped), with `Dec.toRat` giving the rational value.  This is
  the exact-arithmetic reading of the Python float computations.
* Python truthiness on optional floats (`None` and `0.0` are falsy, used
  by the source in `x or default` and `if not x`) is modelled by `truthy`
  and `pyOrV`.
-/

set_option maxRecDepth 4000

namespace SWPrompt

/-- Exact nonnegative decimal fraction: the value `num / 10 ^ exp`. -/
structure Dec where
  num : Nat
  exp : Nat
deriving DecidableEq

/-- Strip factors of 10 shared by mantissa and exponent (canonical form helper). -/
def decNormGo : Nat → Nat → Dec
  | n, 0 => ⟨n, 0⟩
  | n, e + 1 => if n % 10 = 0 then decNormGo (n / 10) e else ⟨n, e + 1⟩

/-- Canonical decimal fraction with value `n / 10 ^ e`. -/
def decNorm (n e : Nat) : Dec := if n = 0 then ⟨0, 0⟩ else decNormGo n e

/-- Product of two decimal fractions. -/
def Dec.mul (a b : Dec) : Dec := decNorm (a.num * b.num) (a.exp + b.exp)

/-- Half of a decimal fraction (used for `diameter / 2` in the source). -/
def Dec.half (a : Dec) : Dec := decNorm (5 * a.num) (a.exp + 1)

/-- Rational value of a decimal fraction. -/
def Dec.toRat (d : Dec) : ℚ := (d.num : ℚ) / 10 ^ d.exp

/-- String literal to character list. -/
def s2l (s : String) : List Char := s.data

/-- Python `\s` (ASCII whitespace as used by the prompts). -/
def isSpaceChar (c : Char) : Bool :=
  c = ' ' || c = '\t' || c = '\n' || c = '\r' || c = '\x0b' || c = '\x0c'

/-- ASCII lower-casing of one character (Python `str.lower` on the ASCII prompts). -/
def lowerChar (c : Char) : Char :=
  if 'A' ≤ c ∧ c ≤ 'Z' then Char.ofNat (c.toNat + 32) else c

/-- Python `str.lower`. -/
def lower (s : List Char) : List Char := s.map lowerChar

/-- Python `str.strip` (whitespace from both ends). -/
def stripWs (s : List Char) : List Char :=
  ((s.dropWhile isSpaceChar).reverse.dropWhile isSpaceChar).reverse

/-- Python `str.rstrip('.')`. -/
def rstripDot (s : List Char) : List Char :=
  (s.reverse.dropWhile (· = '.')).reverse

/-- Python substring test `needle in hay`. -/
def containsSub (needle : List Char) : List Char → Bool
  | [] => needle.isEmpty
  | c :: t => needle.isPrefixOf (c :: t) || containsSub needle t

/-- Python `any(w in hay for w in ws)`. -/
def containsAny (ws : List (List Char)) (hay : List Char) : Bool :=
  ws.any (containsSub · hay)

/-- The `UNIT_TO_METERS` dictionary of the source (src/SolidworksPromptApp.py:29). -/
def UNIT_TO_METERS (u : List Char) : Option Dec :=
  if u = s2l "mm" ∨ u = s2l "millimeter" ∨ u = s2l "millimeters" then some ⟨1, 3⟩   -- 0.001
  else if u = s2l "cm" ∨ u = s2l "centimeter" ∨ u = s2l "centimeters" then some ⟨1, 2⟩  -- 0.01
  else if u = s2l "m" ∨ u = s2l "meter" ∨ u = s2l "meters" then some ⟨1, 0⟩  -- 1.0
  else if u = s2l "in" ∨ u = s2l "inch" ∨ u = s2l "inches" ∨ u = s2l "\"" then some ⟨254, 4⟩  -- 0.0254
  else if u = s2l "ft" ∨ u = s2l "foot" ∨ u = s2l "feet" then some ⟨3048, 4⟩  -- 0.3048
  else none

/-- `convert_to_meters` of the source (src/SolidworksPromptApp.py:37). -/
def convert_to_meters (value : Dec) (unit : List Char) : Dec :=
  let u := rstripDot (stripWs (lower unit))
  Dec.mul value ((UNIT_TO_METERS u).getD ⟨1, 3⟩)

/-- `detect_units` of the source (src/SolidworksPromptApp.py:54). -/
def detect_units (prompt : List Char) : List Char :=
  let pl := lower prompt
  if containsAny [s2l "inch", s2l "inches", s2l "\"", s2l " in "] pl then s2l "in"
  else if containsSub (s2l "cm") pl || containsSub (s2l "centimeter") pl then s2l "cm"
  else if containsSub (s2l "ft") pl || containsSub (s2l "feet") pl then s2l "ft"
  else s2l "mm"

/-- Numeric value of a digit string. -/
def digitsVal (ds : List Char) : Nat :=
  ds.foldl (fun a c => 10 * a + (c.toNat - '0'.toNat)) 0

/-- Greedy match of the regex `\d+\.?\d*` at the head of `s`, returning the
parsed value (Python `float` of the captured text, exactly) and the rest. -/
def matchNumber (s : List Char) : Option (Dec × List Char) :=
  let ds := s.takeWhile Char.isDigit
  let r1 := s.dropWhile Char.isDigit
  if ds.isEmpty then none
  else
    match r1 with
    | '.' :: r2 =>
      let fs := r2.takeWhile Char.isDigit
      some (decNorm (digitsVal ds * 10 ^ fs.length + digitsVal fs) fs.length,
            r2.dropWhile Char.isDigit)
    | _ => some (decNorm (digitsVal ds) 0, r1)

/-- The ordered alternatives of the unit group
`(mm|cm|m|in|inch|inches|ft|feet|foot|")` of the source regexes. -/
def unitAlts : List (List Char) :=
  [s2l "mm", s2l "cm", s2l "m", s2l "in", s2l "inch", s2l "inches",
   s2l "ft", s2l "feet", s2l "foot", s2l "\""]

/-- First unit alternative matching at the head of `s` (ordered alternation). -/
def matchUnit (s : List Char) : Option (List Char × List Char) :=
  (unitAlts.find? (·.isPrefixOf s)).map (fun u => (u, s.drop u.length))

/-- Python `\s*` (greedy). -/
def dropSpaces (s : List Char) : List Char := s.dropWhile isSpaceChar

/-- Tail of the first `extract_dimension` pattern after the keyword and
optional separator: `\s*(\d+\.?\d*)\s*(unit)?` — value plus optional unit. -/
def numUnitAfter (r : List Char) : Option (Dec × Option (List Char)) :=
  match matchNumber (dropSpaces r) with
  | none => none
  | some (v, r2) => some (v, (matchUnit (dropSpaces r2)).map Prod.fst)

/-- Match of pattern 1 of `extract_dimension`,
`{keyword}\s*(?:of|=|:)?\s*(\d+\.?\d*)\s*(unit)?`, anchored at the start of
`s`, with the regex-engine treatment of the optional separator (try each
alternative in order, then try skipping it). -/
def matchP1At (kw : List Char) (s : List Char) : Option (Dec × Option (List Char)) :=
  if kw.isPrefixOf s then
    let r1 := dropSpaces (s.drop kw.length)
    match ([s2l "of", s2l "=", s2l ":"].findSome? fun sep =>
        if sep.isPrefixOf r1 then numUnitAfter (r1.drop sep.length) else none) with
    | some res => some res
    | none => numUnitAfter r1
  else none

/-- Match of pattern 2 of `extract_dimension`,
`(\d+\.?\d*)\s*(unit)?\s*{keyword}`, anchored at the start of `s`, with the
regex-engine treatment of the optional unit group (try each alternative in
order with the keyword required after it, then try skipping the group). -/
def matchP2At (kw : List Char) (s : List Char) : Option (Dec × Option (List Char)) :=
  match matchNumber s with
  | none => none
  | some (v, r1) =>
    let r2 := dropSpaces r1
    match (unitAlts.findSome? fun u =>
        if u.isPrefixOf r2 && kw.isPrefixOf (dropSpaces (r2.drop u.length))
        then some u else none) with
    | some u => some (v, some u)
    | none => if kw.isPrefixOf (dropSpaces r2) then some (v, none) else none

/-- Python `re.search`: try the anchored matcher at every position, leftmost
match wins. -/
def searchAt {α : Type} (f : List Char → Option α) : List Char → Option α
  | [] => f []
  | c :: rest =>
    match f (c :: rest) with
    | some r => some r
    | none => searchAt f rest

/-- `extract_dimension` of the source (src/SolidworksPromptApp.py:65): for each
keyword in order, try pattern 1 then pattern 2 against the lowercased prompt;
the captured number is converted with the adjacent unit if present, else with
the prompt-wide detected unit. -/
def extract_dimension (prompt : List Char) (keywords : List (List Char)) : Option Dec :=
  let prompt_lower := lower prompt
  keywords.findSome? fun kw =>
    match searchAt (matchP1At kw) prompt_lower with
    | some (v, u) => some (convert_to_meters v (u.getD (detect_units prompt)))
    | none =>
      match searchAt (matchP2At kw) prompt_lower with
      | some (v, u) => some (convert_to_meters v (u.getD (detect_units prompt)))
      | none => none

/-- One step of `re.findall(r'(\d+\.?\d*)\s*(unit)?', ...)`: a number with its
optional adjacent unit, anchored at the start of `s`, returning also the rest
of the text after the whole match (trailing `\s*` included). -/
def matchNumUnitAt (s : List Char) : Option (Dec × Option (List Char) × List Char) :=
  match matchNumber s with
  | none => none
  | some (v, r1) =>
    let r2 := dropSpaces r1
    match matchUnit r2 with
    | some (u, r3) => some (v, some u, r3)
    | none => some (v, none, r2)

theorem length_dropWhile_le (p : Char → Bool) (l : List Char) :
    (l.dropWhile p).length ≤ l.length :=
  List.Sublist.length_le (List.dropWhile_sublist p)

theorem length_dropWhile_lt (p : Char → Bool) (c : Char) (l : List Char)
    (h : p c = true) : ((c :: l).dropWhile p).length < (c :: l).length := by
  rw [List.dropWhile_cons_of_pos h]
  exact Nat.lt_succ_of_le (length_dropWhile_le p l)

theorem matchNumber_length_lt {s : List Char} {v : Dec} {r : List Char}
    (h : matchNumber s = some (v, r)) : r.length < s.length := by
  have hdw : (s.dropWhile Char.isDigit).length ≤ s.length := length_dropWhile_le _ s
  simp only [matchNumber] at h
  by_cases hE : (s.takeWhile Char.isDigit).isEmpty
  · rw [if_pos hE] at h; exact absurd h (by simp)
  · rw [if_neg hE] at h
    have h1 : (s.dropWhile Char.isDigit).length < s.length := by
      cases s with
      | nil => simp at hE
      | cons c t =>
        cases hc : Char.isDigit c with
        | false => rw [List.takeWhile_cons_of_neg (by simp [hc])] at hE; simp at hE
        | true => exact length_dropWhile_lt _ _ _ hc
    split at h
    · -- dropWhile produced '.' :: r2
      rename_i r2 heq
      simp only [Option.some.injEq, Prod.mk.injEq] at h
      obtain ⟨-, hr⟩ := h
      subst hr
      have h2 : (r2.dropWhile Char.isDigit).length ≤ r2.length := length_dropWhile_le _ r2
      rw [heq] at h1
      simp only [List.length_cons] at h1
      omega
    · simp only [Option.some.injEq, Prod.mk.injEq] at h
      obtain ⟨-, hr⟩ := h
      subst hr
      exact h1

theorem matchNumUnitAt_length_lt {s : List Char} {v : Dec} {u : Option (List Char)}
    {r : List Char} (h : matchNumUnitAt s = some (v, u, r)) : r.length < s.length := by
  simp only [matchNumUnitAt] at h
  cases hnum : matchNumber s with
  | none => rw [hnum] at h; exact absurd h (by simp)
  | some vr =>
    obtain ⟨v1, r1⟩ := vr
    rw [hnum] at h
    dsimp only [] at h
    have h1 : r1.length < s.length := matchNumber_length_lt hnum
    have h2 : (dropSpaces r1).length ≤ r1.length := length_dropWhile_le _ r1
    cases hu : matchUnit (dropSpaces r1) with
    | none =>
      rw [hu] at h
      simp only [Option.some.injEq, Prod.mk.injEq] at h
      obtain ⟨-, -, hr⟩ := h
      subst hr
      omega
    | some ur =>
      obtain ⟨u1, r3⟩ := ur
      rw [hu] at h
      simp only [Option.some.injEq, Prod.mk.injEq] at h
      obtain ⟨-, -, hr⟩ := h
      subst hr
      have h3 : r3.length ≤ (dropSpaces r1).length := by
        simp only [matchUnit] at hu
        cases hfind : unitAlts.find? (·.isPrefixOf (dropSpaces r1)) with
        | none => rw [hfind] at hu; simp at hu
        | some ua =>
          rw [hfind] at hu
          simp only [Option.map_some', Option.some.injEq, Prod.mk.injEq] at hu
          obtain ⟨-, hr3⟩ := hu
          subst hr3
          rw [List.length_drop]
          exact Nat.sub_le _ _
      omega

/-- The scan of `re.findall(r'(\d+\.?\d*)\s*(unit)?', ...)` over the
lowercased prompt: leftmost non-overlapping matches, each converted to meters
with the adjacent unit if present, else the prompt-wide default unit.  The
first argument is structural-recursion fuel; by `findallNumbers_fuel` any
fuel of at least the text length gives the same (fuel-independent) result,
so the scan with fuel `s.length` is the plain Python scan. -/
def findallNumbers (du : List Char) : Nat → List Char → List Dec
  | 0, _ => []
  | _, [] => []
  | fuel + 1, c :: rest =>
    match matchNumUnitAt (c :: rest) with
    | some (v, u, r) => convert_to_meters v (u.getD du) :: findallNumbers du fuel r
    | none => findallNumbers du fuel rest

theorem findallNumbers_fuel {du : List Char} :
    ∀ (n : Nat) (s : List Char) (m : Nat), s.length ≤ n → s.length ≤ m →
      findallNumbers du n s = findallNumbers du m s := by
  intro n
  induction n with
  | zero =>
    intro s m h1 _
    rw [Nat.le_zero, List.length_eq_zero] at h1
    subst h1
    cases m <;> rfl
  | succ n ih =>
    intro s m h1 h2
    cases s with
    | nil => cases m <;> rfl
    | cons c rest =>
      cases m with
      | zero => simp at h2
      | succ m2 =>
        simp only [findallNumbers]
        simp only [List.length_cons] at h1 h2
        cases hm : matchNumUnitAt (c :: rest) with
        | some vur =>
          obtain ⟨v, u, r⟩ := vur
          have hr := matchNumUnitAt_length_lt hm
          simp only [List.length_cons] at hr
          dsimp only []
          rw [ih r m2 (by omega) (by omega)]
        | none =>
          dsimp only []
          exact ih rest m2 (by omega) (by omega)

/-- `extract_all_numbers` of the source (src/SolidworksPromptApp.py:83). -/
def extract_all_numbers (prompt : List Char) : List Dec :=
  findallNumbers (detect_units prompt) (lower prompt).length (lower prompt)

/-- Match of `(\d+\.?\d*)\s*x\s*(\d+\.?\d*)\s*x\s*(\d+\.?\d*)` (the box
`NxNxN` pattern, src/SolidworksPromptApp.py:136) anchored at the start. -/
def axb3At (s : List Char) : Option (Dec × Dec × Dec) :=
  match matchNumber s with
  | none => none
  | some (a, r1) =>
    match dropSpaces r1 with
    | 'x' :: r2 =>
      match matchNumber (dropSpaces r2) with
      | none => none
      | some (b, r3) =>
        match dropSpaces r3 with
        | 'x' :: r4 =>
          match matchNumber (dropSpaces r4) with
          | none => none
          | some (c, _) => some (a, b, c)
        | _ => none
    | _ => none

/-- `re.search` of the box `NxNxN` pattern. -/
def axb3 (s : List Char) : Option (Dec × Dec × Dec) := searchAt axb3At s

/-- Match of `(\d+\.?\d*)\s*x\s*(\d+\.?\d*)` (the rectangle `NxN` pattern,
src/SolidworksPromptApp.py:276) anchored at the start. -/
def axb2At (s : List Char) : Option (Dec × Dec) :=
  match matchNumber s with
  | none => none
  | some (a, r1) =>
    match dropSpaces r1 with
    | 'x' :: r2 =>
      match matchNumber (dropSpaces r2) with
      | none => none
      | some (b, _) => some (a, b)
    | _ => none

/-- `re.search` of the rectangle `NxN` pattern. -/
def axb2 (s : List Char) : Option (Dec × Dec) := searchAt axb2At s

/-- Match of `(\d+)\s*point` (the star point-count pattern,
src/SolidworksPromptApp.py:379) anchored at the start. -/
def pointsAt (s : List Char) : Option Nat :=
  let ds := s.takeWhile Char.isDigit
  if ds.isEmpty then none
  else if (s2l "point").isPrefixOf (dropSpaces (s.dropWhile Char.isDigit)) then
    some (digitsVal ds)
  else none

/-- `re.search` of the star point-count pattern. -/
def searchPoints (s : List Char) : Option Nat := searchAt pointsAt s

/-- Python truthiness of an optional float: `None` and `0.0` are falsy. -/
def truthy : Option Dec → Bool
  | none => false
  | some d => d.num != 0

/-- Python `x or v` for an optional float `x` and float `v`: keeps `x` when it
is truthy, else gives `v`. -/
def pyOrV (x : Option Dec) (v : Dec) : Dec :=
  match x with
  | none => v
  | some a => if a.num = 0 then v else a

/-- The `ParsedShape` class of the source (src/SolidworksPromptApp.py:46); the
`is_2d` constructor argument defaults to false in the source. -/
structure ParsedShape where
  shape_type : String
  params : List (String × Dec)
  units : List Char
  is_2d : Bool
deriving DecidableEq

/-- Trigger keywords of the cylinder rule (priority 1). -/
def cylinderKw : List (List Char) := [s2l "cylinder", s2l "cylindrical", s2l "tube", s2l "pipe"]

/-- Trigger keywords of the box rule (priority 3). -/
def boxKw : List (List Char) := [s2l "box", s2l "rectangular", s2l "prism", s2l "block"]

/-- Trigger keywords of the ellipse rule (priority 8). -/
def ellipseKw : List (List Char) := [s2l "ellipse", s2l "oval"]

/-- Trigger keywords of the washer rule (priority 13). -/
def washerKw : List (List Char) := [s2l "washer", s2l "ring", s2l "donut", s2l "annulus"]

/-- Trigger keywords of the l-shape rule (priority 14). -/
def lshapeKw : List (List Char) := [s2l "l-shape", s2l "lshape", s2l "l shape"]

/-- Trigger keywords of the cross rule (priority 15). -/
def crossKw : List (List Char) := [s2l "cross", s2l "plus"]

/-- Cylinder branch of `parse_prompt` (src/SolidworksPromptApp.py:103-119). -/
def cylinderBranch (prompt : List Char) (units : List Char) : ParsedShape :=
  let radius := extract_dimension prompt [s2l "radius", s2l "r"]
  let diameter := extract_dimension prompt [s2l "diameter", s2l "dia", s2l "d"]
  let height := extract_dimension prompt [s2l "height", s2l "tall", s2l "long", s2l "h"]
  let radius := if truthy diameter && !truthy radius
                then some (Dec.half (diameter.getD ⟨0, 0⟩)) else radius
  let numbers := extract_all_numbers prompt
  let fb := (!truthy radius || !truthy height) && decide (numbers.length ≥ 2)
  let radius := if fb then some (pyOrV radius (numbers.getD 0 ⟨0, 0⟩)) else radius
  let height := if fb then some (pyOrV height (numbers.getD 1 ⟨0, 0⟩)) else height
  ⟨"cylinder", [("radius", pyOrV radius ⟨1, 2⟩), ("height", pyOrV height ⟨2, 2⟩)], units, false⟩

/-- Cube branch of `parse_prompt` (src/SolidworksPromptApp.py:122-127). -/
def cubeBranch (prompt : List Char) (units : List Char) : ParsedShape :=
  let size := extract_dimension prompt [s2l "side", s2l "size", s2l "length"]
  let size := if truthy size then size.getD ⟨0, 0⟩
              else match extract_all_numbers prompt with
                   | n :: _ => n
                   | [] => ⟨2, 2⟩
  ⟨"cube", [("size", size)], units, false⟩

/-- Box branch of `parse_prompt` (src/SolidworksPromptApp.py:130-153). -/
def boxBranch (prompt : List Char) (prompt_lower : List Char) (units : List Char) : ParsedShape :=
  let width := extract_dimension prompt [s2l "width", s2l "wide", s2l "w"]
  let height := extract_dimension prompt [s2l "height", s2l "tall", s2l "h"]
  let depth := extract_dimension prompt
      [s2l "depth", s2l "deep", s2l "long", s2l "length", s2l "d", s2l "l"]
  let numbers := extract_all_numbers prompt
  let axb := axb3 prompt_lower
  let unit := detect_units prompt
  let width := match axb with
    | some (a, _, _) => some (convert_to_meters a unit)
    | none => if numbers.length ≥ 3 then some (pyOrV width (numbers.getD 0 ⟨0, 0⟩))
              else if numbers.length = 1 then some (numbers.getD 0 ⟨0, 0⟩) else width
  let height := match axb with
    | some (_, b, _) => some (convert_to_meters b unit)
    | none => if numbers.length ≥ 3 then some (pyOrV height (numbers.getD 1 ⟨0, 0⟩))
              else if numbers.length = 1 then some (numbers.getD 0 ⟨0, 0⟩) else height
  let depth := match axb with
    | some (_, _, c) => some (convert_to_meters c unit)
    | none => if numbers.length ≥ 3 then some (pyOrV depth (numbers.getD 2 ⟨0, 0⟩))
              else if numbers.length = 1 then some (numbers.getD 0 ⟨0, 0⟩) else depth
  ⟨"box", [("width", pyOrV width ⟨2, 2⟩), ("height", pyOrV height ⟨2, 2⟩),
           ("depth", pyOrV depth ⟨2, 2⟩)], units, false⟩

/-- Hexagon branch of `parse_prompt` (src/SolidworksPromptApp.py:156-168). -/
def hexagonBranch (prompt : List Char) (units : List Char) (is_2d : Bool) : ParsedShape :=
  let radius := extract_dimension prompt [s2l "radius", s2l "r", s2l "size"]
  let height := extract_dimension prompt [s2l "height", s2l "tall", s2l "h", s2l "thick"]
  let numbers := extract_all_numbers prompt
  let radius := if !truthy radius && !numbers.isEmpty then some (numbers.getD 0 ⟨0, 0⟩) else radius
  let height := if !truthy height && decide (numbers.length ≥ 2)
                then some (numbers.getD 1 ⟨0, 0⟩) else height
  ⟨"hexagon", [("radius", pyOrV radius ⟨1, 2⟩), ("height", pyOrV height ⟨1, 2⟩)], units, is_2d⟩

/-- Triangle branch of `parse_prompt` (src/SolidworksPromptApp.py:171-187). -/
def triangleBranch (prompt : List Char) (units : List Char) (is_2d : Bool) : ParsedShape :=
  let base := extract_dimension prompt [s2l "base", s2l "width", s2l "b", s2l "w"]
  let tri_height := extract_dimension prompt [s2l "height", s2l "tall", s2l "h"]
  let depth := extract_dimension prompt [s2l "depth", s2l "thick", s2l "extrude", s2l "d"]
  let numbers := extract_all_numbers prompt
  let base := if !truthy base && !numbers.isEmpty then some (numbers.getD 0 ⟨0, 0⟩) else base
  let tri_height := if !truthy tri_height && decide (numbers.length ≥ 2)
                    then some (numbers.getD 1 ⟨0, 0⟩) else tri_height
  let depth := if !truthy depth && decide (numbers.length ≥ 3)
               then some (numbers.getD 2 ⟨0, 0⟩) else depth
  ⟨"triangle", [("base", pyOrV base ⟨2, 2⟩), ("tri_height", pyOrV tri_height ⟨2, 2⟩),
                ("depth", pyOrV depth ⟨1, 2⟩)], units, is_2d⟩

/-- Pentagon branch of `parse_prompt` (src/SolidworksPromptApp.py:190-202). -/
def pentagonBranch (prompt : List Char) (units : List Char) (is_2d : Bool) : ParsedShape :=
  let radius := extract_dimension prompt [s2l "radius", s2l "r", s2l "size"]
  let height := extract_dimension prompt [s2l "height", s2l "tall", s2l "h", s2l "thick"]
  let numbers := extract_all_numbers prompt
  let radius := if !truthy radius && !numbers.isEmpty then some (numbers.getD 0 ⟨0, 0⟩) else radius
  let height := if !truthy height && decide (numbers.length ≥ 2)
                then some (numbers.getD 1 ⟨0, 0⟩) else height
  ⟨"pentagon", [("radius", pyOrV radius ⟨1, 2⟩), ("height", pyOrV height ⟨1, 2⟩)], units, is_2d⟩

/-- Octagon branch of `parse_prompt` (src/SolidworksPromptApp.py:205-217). -/
def octagonBranch (prompt : List Char) (units : List Char) (is_2d : Bool) : ParsedShape :=
  let radius := extract_dimension prompt [s2l "radius", s2l "r", s2l "size"]
  let height := extract_dimension prompt [s2l "height", s2l "tall", s2l "h", s2l "thick"]
  let numbers := extract_all_numbers prompt
  let radius := if !truthy radius && !numbers.isEmpty then some (numbers.getD 0 ⟨0, 0⟩) else radius
  let height := if !truthy height && decide (numbers.length ≥ 2)
                then some (numbers.getD 1 ⟨0, 0⟩) else height
  ⟨"octagon", [("radius", pyOrV radius ⟨1, 2⟩), ("height", pyOrV height ⟨1, 2⟩)], units, is_2d⟩

/-- Ellipse branch of `parse_prompt` (src/SolidworksPromptApp.py:220-236). -/
def ellipseBranch (prompt : List Char) (units : List Char) (is_2d : Bool) : ParsedShape :=
  let major := extract_dimension prompt [s2l "major", s2l "length", s2l "long", s2l "a"]
  let minor := extract_dimension prompt [s2l "minor", s2l "width", s2l "short", s2l "b"]
  let height := extract_dimension prompt [s2l "height", s2l "tall", s2l "h", s2l "thick"]
  let numbers := extract_all_numbers prompt
  let major := if !truthy major && !numbers.isEmpty then some (numbers.getD 0 ⟨0, 0⟩) else major
  let minor := if !truthy minor && decide (numbers.length ≥ 2)
               then some (numbers.getD 1 ⟨0, 0⟩) else minor
  let height := if !truthy height && decide (numbers.length ≥ 3)
                then some (numbers.getD 2 ⟨0, 0⟩) else height
  ⟨"ellipse", [("major", pyOrV major ⟨2, 2⟩), ("minor", pyOrV minor ⟨1, 2⟩),
               ("height", pyOrV height ⟨1, 2⟩)], units, is_2d⟩

/-- Circle branch of `parse_prompt` (src/SolidworksPromptApp.py:239-253): the
shape is reclassified as a cylinder when a height was extracted. -/
def circleBranch (prompt : List Char) (units : List Char) : ParsedShape :=
  let radius := extract_dimension prompt [s2l "radius", s2l "r"]
  let diameter := extract_dimension prompt [s2l "diameter", s2l "dia", s2l "d"]
  let height := extract_dimension prompt
      [s2l "height", s2l "tall", s2l "h", s2l "thick", s2l "extrude"]
  let radius := if truthy diameter && !truthy radius
                then some (Dec.half (diameter.getD ⟨0, 0⟩)) else radius
  let radius := if !truthy radius then
                  (match extract_all_numbers prompt with
                   | n :: _ => some n
                   | [] => some ⟨1, 2⟩)
                else radius
  let radius := pyOrV radius ⟨1, 2⟩
  if truthy height then
    ⟨"cylinder", [("radius", radius), ("height", height.getD ⟨0, 0⟩)], units, false⟩
  else
    ⟨"circle", [("radius", radius)], units, true⟩

/-- Square branch of `parse_prompt` (src/SolidworksPromptApp.py:256-267): the
shape is reclassified as a cube when a height was extracted. -/
def squareBranch (prompt : List Char) (units : List Char) : ParsedShape :=
  let size := extract_dimension prompt [s2l "side", s2l "size", s2l "length", s2l "s"]
  let height := extract_dimension prompt
      [s2l "height", s2l "tall", s2l "h", s2l "thick", s2l "extrude"]
  let numbers := extract_all_numbers prompt
  let size := if !truthy size && !numbers.isEmpty then some (numbers.getD 0 ⟨0, 0⟩) else size
  let size := pyOrV size ⟨2, 2⟩
  if truthy height then
    ⟨"cube", [("size", size)], units, false⟩
  else
    ⟨"square", [("size", size)], units, true⟩

/-- Rectangle branch of `parse_prompt` (src/SolidworksPromptApp.py:270-289):
the shape is reclassified as a box when a depth was extracted (note the
source maps the extracted depth to the box `height` key and the rectangle
length to the box `depth` key). -/
def rectangleBranch (prompt : List Char) (prompt_lower : List Char) (units : List Char) :
    ParsedShape :=
  let width := extract_dimension prompt [s2l "width", s2l "wide", s2l "w"]
  let length := extract_dimension prompt [s2l "length", s2l "long", s2l "l", s2l "height", s2l "h"]
  let depth := extract_dimension prompt [s2l "depth", s2l "thick", s2l "extrude", s2l "d"]
  let numbers := extract_all_numbers prompt
  let axb := axb2 prompt_lower
  let unit := detect_units prompt
  let width := match axb with
    | some (a, _) => some (convert_to_meters a unit)
    | none => if numbers.length ≥ 2 then some (pyOrV width (numbers.getD 0 ⟨0, 0⟩)) else width
  let length := match axb with
    | some (_, b) => some (convert_to_meters b unit)
    | none => if numbers.length ≥ 2 then some (pyOrV length (numbers.getD 1 ⟨0, 0⟩)) else length
  let width := pyOrV width ⟨2, 2⟩
  let length := pyOrV length ⟨1, 2⟩
  if truthy depth then
    ⟨"box", [("width", width), ("height", depth.getD ⟨0, 0⟩), ("depth", length)], units, false⟩
  else
    ⟨"rectangle", [("width", width), ("length", length)], units, true⟩

/-- Slot branch of `parse_prompt` (src/SolidworksPromptApp.py:292-308). -/
def slotBranch (prompt : List Char) (units : List Char) (is_2d : Bool) : ParsedShape :=
  let length := extract_dimension prompt [s2l "length", s2l "long", s2l "l"]
  let width := extract_dimension prompt [s2l "width", s2l "wide", s2l "w"]
  let height := extract_dimension prompt [s2l "height", s2l "tall", s2l "h", s2l "thick"]
  let numbers := extract_all_numbers prompt
  let length := if !truthy length && !numbers.isEmpty then some (numbers.getD 0 ⟨0, 0⟩) else length
  let width := if !truthy width && decide (numbers.length ≥ 2)
               then some (numbers.getD 1 ⟨0, 0⟩) else width
  let height := if !truthy height && decide (numbers.length ≥ 3)
                then some (numbers.getD 2 ⟨0, 0⟩) else height
  ⟨"slot", [("length", pyOrV length ⟨3, 2⟩), ("width", pyOrV width ⟨1, 2⟩),
            ("height", pyOrV height ⟨5, 3⟩)], units, is_2d⟩

/-- Washer branch of `parse_prompt` (src/SolidworksPromptApp.py:311-327). -/
def washerBranch (prompt : List Char) (units : List Char) (is_2d : Bool) : ParsedShape :=
  let outer := extract_dimension prompt [s2l "outer", s2l "outside", s2l "od", s2l "diameter"]
  let inner := extract_dimension prompt [s2l "inner", s2l "inside", s2l "id", s2l "hole"]
  let height := extract_dimension prompt [s2l "height", s2l "tall", s2l "h", s2l "thick"]
  let numbers := extract_all_numbers prompt
  let outer := if !truthy outer && !numbers.isEmpty then some (numbers.getD 0 ⟨0, 0⟩) else outer
  let inner := if !truthy inner && decide (numbers.length ≥ 2)
               then some (numbers.getD 1 ⟨0, 0⟩) else inner
  let height := if !truthy height && decide (numbers.length ≥ 3)
                then some (numbers.getD 2 ⟨0, 0⟩) else height
  ⟨"washer", [("outer", pyOrV outer ⟨2, 2⟩), ("inner", pyOrV inner ⟨1, 2⟩),
              ("height", pyOrV height ⟨5, 3⟩)], units, is_2d⟩

/-- L-shape branch of `parse_prompt` (src/SolidworksPromptApp.py:330-350). -/
def lshapeBranch (prompt : List Char) (units : List Char) (is_2d : Bool) : ParsedShape :=
  let width := extract_dimension prompt [s2l "width", s2l "w"]
  let length := extract_dimension prompt [s2l "length", s2l "l", s2l "height", s2l "h"]
  let thickness := extract_dimension prompt [s2l "thick", s2l "t"]
  let depth := extract_dimension prompt [s2l "depth", s2l "d", s2l "extrude"]
  let numbers := extract_all_numbers prompt
  let width := if numbers.length ≥ 1 then some (pyOrV width (numbers.getD 0 ⟨0, 0⟩)) else width
  let length := if numbers.length ≥ 2 then some (pyOrV length (numbers.getD 1 ⟨0, 0⟩)) else length
  let thickness := if numbers.length ≥ 3 then some (pyOrV thickness (numbers.getD 2 ⟨0, 0⟩))
                   else thickness
  let depth := if numbers.length ≥ 4 then some (pyOrV depth (numbers.getD 3 ⟨0, 0⟩)) else depth
  ⟨"lshape", [("width", pyOrV width ⟨2, 2⟩), ("length", pyOrV length ⟨2, 2⟩),
              ("thickness", pyOrV thickness ⟨3, 3⟩), ("depth", pyOrV depth ⟨1, 2⟩)],
   units, is_2d⟩

/-- Cross branch of `parse_prompt` (src/SolidworksPromptApp.py:353-369). -/
def crossBranch (prompt : List Char) (units : List Char) (is_2d : Bool) : ParsedShape :=
  let size := extract_dimension prompt [s2l "size", s2l "s", s2l "width", s2l "w"]
  let thickness := extract_dimension prompt [s2l "thick", s2l "t", s2l "arm"]
  let depth := extract_dimension prompt [s2l "depth", s2l "d", s2l "height", s2l "h"]
  let numbers := extract_all_numbers prompt
  let size := if numbers.length ≥ 1 then some (pyOrV size (numbers.getD 0 ⟨0, 0⟩)) else size
  let thickness := if numbers.length ≥ 2 then some (pyOrV thickness (numbers.getD 1 ⟨0, 0⟩))
                   else thickness
  let depth := if numbers.length ≥ 3 then some (pyOrV depth (numbers.getD 2 ⟨0, 0⟩)) else depth
  ⟨"cross", [("size", pyOrV size ⟨2, 2⟩), ("thickness", pyOrV thickness ⟨5, 3⟩),
             ("depth", pyOrV depth ⟨5, 3⟩)], units, is_2d⟩

/-- Star branch of `parse_prompt` (src/SolidworksPromptApp.py:372-391); the
integer point count is stored as the numeral `points / 10 ^ 0`. -/
def starBranch (prompt : List Char) (prompt_lower : List Char) (units : List Char)
    (is_2d : Bool) : ParsedShape :=
  let outer := extract_dimension prompt [s2l "outer", s2l "radius", s2l "r", s2l "size"]
  let inner := extract_dimension prompt [s2l "inner"]
  let height := extract_dimension prompt [s2l "height", s2l "h", s2l "thick", s2l "depth"]
  let numbers := extract_all_numbers prompt
  let points : Nat := (searchPoints prompt_lower).getD 5
  let outer := if !truthy outer && !numbers.isEmpty then some (numbers.getD 0 ⟨0, 0⟩) else outer
  let height := if !truthy height && decide (numbers.length ≥ 2)
                then some (numbers.getD 1 ⟨0, 0⟩) else height
  let outer := pyOrV outer ⟨2, 2⟩
  let inner := pyOrV inner (Dec.mul outer ⟨4, 1⟩)  -- outer * 0.4
  let height := pyOrV height ⟨5, 3⟩
  ⟨"star", [("outer", outer), ("inner", inner), ("points", ⟨points, 0⟩), ("height", height)],
   units, is_2d⟩

/-- `parse_prompt` of the source (src/SolidworksPromptApp.py:95-393): the
cascading keyword dispatch, first match in priority order wins, `none` when
no trigger keyword occurs. -/
def parse_prompt (prompt : List Char) : Option ParsedShape :=
  let prompt_lower := stripWs (lower prompt)
  let units := detect_units prompt
  let is_2d := containsAny [s2l "2d", s2l "sketch", s2l "draw", s2l "flat"] prompt_lower
  if containsAny cylinderKw prompt_lower then
    some (cylinderBranch prompt units)
  else if containsSub (s2l "cube") prompt_lower then
    some (cubeBranch prompt units)
  else if containsAny boxKw prompt_lower then
    some (boxBranch prompt prompt_lower units)
  else if containsSub (s2l "hexagon") prompt_lower || containsSub (s2l "hex") prompt_lower then
    some (hexagonBranch prompt units is_2d)
  else if containsSub (s2l "triangle") prompt_lower then
    some (triangleBranch prompt units is_2d)
  else if containsSub (s2l "pentagon") prompt_lower then
    some (pentagonBranch prompt units is_2d)
  else if containsSub (s2l "octagon") prompt_lower then
    some (octagonBranch prompt units is_2d)
  else if containsAny ellipseKw prompt_lower then
    some (ellipseBranch prompt units is_2d)
  else if containsSub (s2l "circle") prompt_lower then
    some (circleBranch prompt units)
  else if containsSub (s2l "square") prompt_lower then
    some (squareBranch prompt units)
  else if containsSub (s2l "rectangle") prompt_lower || containsSub (s2l "rect") prompt_lower then
    some (rectangleBranch prompt prompt_lower units)
  else if containsSub (s2l "slot") prompt_lower then
    some (slotBranch prompt units is_2d)
  else if containsAny washerKw prompt_lower then
    some (washerBranch prompt units is_2d)
  else if containsAny lshapeKw prompt_lower then
    some (lshapeBranch prompt units is_2d)
  else if containsAny crossKw prompt_lower then
    some (crossBranch prompt units is_2d)
  else if containsSub (s2l "star") prompt_lower then
    some (starBranch prompt prompt_lower units is_2d)
  else none

/-- Required parameter keys per shape kind, from the spec's parameter table
(§4; the spec's `l_shape` label is the source's `'lshape'` string). -/
def requiredKeys : String → List String
  | "cylinder" => ["radius", "height"]
  | "cube" => ["size"]
  | "box" => ["width", "height", "depth"]
  | "hexagon" => ["radius", "height"]
  | "triangle" => ["base", "tri_height", "depth"]
  | "pentagon" => ["radius", "height"]
  | "octagon" => ["radius", "height"]
  | "ellipse" => ["major", "minor", "height"]
  | "circle" => ["radius"]
  | "square" => ["size"]
  | "rectangle" => ["width", "length"]
  | "slot" => ["length", "width", "height"]
  | "washer" => ["outer", "inner", "height"]
  | "lshape" => ["width", "length", "thickness", "depth"]
  | "cross" => ["size", "thickness", "depth"]
  | "star" => ["outer", "inner", "points", "height"]
  | _ => []

/-- All shape trigger keywords of the priority table, in priority order. -/
def allTriggers : List (List Char) :=
  cylinderKw ++ [s2l "cube"] ++ boxKw ++
  [s2l "hexagon", s2l "hex", s2l "triangle", s2l "pentagon", s2l "octagon"] ++
  ellipseKw ++ [s2l "circle", s2l "square", s2l "rectangle", s2l "rect", s2l "slot"] ++
  washerKw ++ lshapeKw ++ crossKw ++ [s2l "star"]

theorem cylinderBranch_eval (p u : List Char) :
    (cylinderBranch p u).shape_type = "cylinder" ∧
    (cylinderBranch p u).params.map Prod.fst = ["radius", "height"] ∧
    (cylinderBranch p u).is_2d = false :=
  ⟨rfl, rfl, rfl⟩

theorem cubeBranch_eval (p u : List Char) :
    (cubeBranch p u).shape_type = "cube" ∧
    (cubeBranch p u).params.map Prod.fst = ["size"] ∧
    (cubeBranch p u).is_2d = false :=
  ⟨rfl, rfl, rfl⟩

theorem boxBranch_eval (p pl u : List Char) :
    (boxBranch p pl u).shape_type = "box" ∧
    (boxBranch p pl u).params.map Prod.fst = ["width", "height", "depth"] ∧
    (boxBranch p pl u).is_2d = false :=
  ⟨rfl, rfl, rfl⟩

theorem hexagonBranch_eval (p u : List Char) (b : Bool) :
    (hexagonBranch p u b).shape_type = "hexagon" ∧
    (hexagonBranch p u b).params.map Prod.fst = ["radius", "height"] ∧
    (hexagonBranch p u b).is_2d = b :=
  ⟨rfl, rfl, rfl⟩

theorem triangleBranch_eval (p u : List Char) (b : Bool) :
    (triangleBranch p u b).shape_type = "triangle" ∧
    (triangleBranch p u b).params.map Prod.fst = ["base", "tri_height", "depth"] ∧
    (triangleBranch p u b).is_2d = b :=
  ⟨rfl, rfl, rfl⟩

theorem pentagonBranch_eval (p u : List Char) (b : Bool) :
    (pentagonBranch p u b).shape_type = "pentagon" ∧
    (pentagonBranch p u b).params.map Prod.fst = ["radius", "height"] ∧
    (pentagonBranch p u b).is_2d = b :=
  ⟨rfl, rfl, rfl⟩

theorem octagonBranch_eval (p u : List Char) (b : Bool) :
    (octagonBranch p u b).shape_type = "octagon" ∧
    (octagonBranch p u b).params.map Prod.fst = ["radius", "height"] ∧
    (octagonBranch p u b).is_2d = b :=
  ⟨rfl, rfl, rfl⟩

theorem ellipseBranch_eval (p u : List Char) (b : Bool) :
    (ellipseBranch p u b).shape_type = "ellipse" ∧
    (ellipseBranch p u b).params.map Prod.fst = ["major", "minor", "height"] ∧
    (ellipseBranch p u b).is_2d = b :=
  ⟨rfl, rfl, rfl⟩

theorem slotBranch_eval (p u : List Char) (b : Bool) :
    (slotBranch p u b).shape_type = "slot" ∧
    (slotBranch p u b).params.map Prod.fst = ["length", "width", "height"] ∧
    (slotBranch p u b).is_2d = b :=
  ⟨rfl, rfl, rfl⟩

theorem washerBranch_eval (p u : List Char) (b : Bool) :
    (washerBranch p u b).shape_type = "washer" ∧
    (washerBranch p u b).params.map Prod.fst = ["outer", "inner", "height"] ∧
    (washerBranch p u b).is_2d = b :=
  ⟨rfl, rfl, rfl⟩

theorem lshapeBranch_eval (p u : List Char) (b : Bool) :
    (lshapeBranch p u b).shape_type = "lshape" ∧
    (lshapeBranch p u b).params.map Prod.fst = ["width", "length", "thickness", "depth"] ∧
    (lshapeBranch p u b).is_2d = b :=
  ⟨rfl, rfl, rfl⟩

theorem crossBranch_eval (p u : List Char) (b : Bool) :
    (crossBranch p u b).shape_type = "cross" ∧
    (crossBranch p u b).params.map Prod.fst = ["size", "thickness", "depth"] ∧
    (crossBranch p u b).is_2d = b :=
  ⟨rfl, rfl, rfl⟩

theorem starBranch_eval (p pl u : List Char) (b : Bool) :
    (starBranch p pl u b).shape_type = "star" ∧
    (starBranch p pl u b).params.map Prod.fst = ["outer", "inner", "points", "height"] ∧
    (starBranch p pl u b).is_2d = b :=
  ⟨rfl, rfl, rfl⟩

theorem circleBranch_eval (p u : List Char) :
    ((circleBranch p u).shape_type = "cylinder" ∧ (circleBranch p u).is_2d = false ∧
      (circleBranch p u).params.map Prod.fst = ["radius", "height"]) ∨
    ((circleBranch p u).shape_type = "circle" ∧ (circleBranch p u).is_2d = true ∧
      (circleBranch p u).params.map Prod.fst = ["radius"]) := by
  by_cases h : truthy (extract_dimension p
      [s2l "height", s2l "tall", s2l "h", s2l "thick", s2l "extrude"]) = true
  · left
    simp only [circleBranch]
    rw [if_pos h]
    exact ⟨rfl, rfl, rfl⟩
  · right
    simp only [circleBranch]
    rw [if_neg h]
    exact ⟨rfl, rfl, rfl⟩

theorem squareBranch_eval (p u : List Char) :
    ((squareBranch p u).shape_type = "cube" ∧ (squareBranch p u).is_2d = false ∧
      (squareBranch p u).params.map Prod.fst = ["size"]) ∨
    ((squareBranch p u).shape_type = "square" ∧ (squareBranch p u).is_2d = true ∧
      (squareBranch p u).params.map Prod.fst = ["size"]) := by
  by_cases h : truthy (extract_dimension p
      [s2l "height", s2l "tall", s2l "h", s2l "thick", s2l "extrude"]) = true
  · left
    simp only [squareBranch]
    rw [if_pos h]
    exact ⟨rfl, rfl, rfl⟩
  · right
    simp only [squareBranch]
    rw [if_neg h]
    exact ⟨rfl, rfl, rfl⟩

theorem rectangleBranch_eval (p pl u : List Char) :
    ((rectangleBranch p pl u).shape_type = "box" ∧ (rectangleBranch p pl u).is_2d = false ∧
      (rectangleBranch p pl u).params.map Prod.fst = ["width", "height", "depth"]) ∨
    ((rectangleBranch p pl u).shape_type = "rectangle" ∧ (rectangleBranch p pl u).is_2d = true ∧
      (rectangleBranch p pl u).params.map Prod.fst = ["width", "length"]) := by
  by_cases h : truthy (extract_dimension p
      [s2l "depth", s2l "thick", s2l "extrude", s2l "d"]) = true
  · left
    simp only [rectangleBranch]
    rw [if_pos h]
    exact ⟨rfl, rfl, rfl⟩
  · right
    simp only [rectangleBranch]
    rw [if_neg h]
    exact ⟨rfl, rfl, rfl⟩

/-- Case analysis principle for `parse_prompt`: the dispatch is the cascading
keyword chain, so any property of the result follows from the 16 branch cases
(first matching rule, with all earlier rules failing) plus the no-match case. -/
theorem parse_cases {motive : Option ParsedShape → Prop} (p : List Char)
    (k1 : containsAny cylinderKw (stripWs (lower p)) = true →
      motive (some (cylinderBranch p (detect_units p))))
    (k2 : containsAny cylinderKw (stripWs (lower p)) = false →
      containsSub (s2l "cube") (stripWs (lower p)) = true →
      motive (some (cubeBranch p (detect_units p))))
    (k3 : containsAny cylinderKw (stripWs (lower p)) = false →
      containsSub (s2l "cube") (stripWs (lower p)) = false →
      containsAny boxKw (stripWs (lower p)) = true →
      motive (some (boxBranch p (stripWs (lower p)) (detect_units p))))
    (k4 : containsAny cylinderKw (stripWs (lower p)) = false →
      containsSub (s2l "cube") (stripWs (lower p)) = false →
      containsAny boxKw (stripWs (lower p)) = false →
      (containsSub (s2l "hexagon") (stripWs (lower p)) ||
        containsSub (s2l "hex") (stripWs (lower p))) = true →
      motive (some (hexagonBranch p (detect_units p)
        (containsAny [s2l "2d", s2l "sketch", s2l "draw", s2l "flat"] (stripWs (lower p))))))
    (k5 : containsAny cylinderKw (stripWs (lower p)) = false →
      containsSub (s2l "cube") (stripWs (lower p)) = false →
      containsAny boxKw (stripWs (lower p)) = false →
      (containsSub (s2l "hexagon") (stripWs (lower p)) ||
        containsSub (s2l "hex") (stripWs (lower p))) = false →
      containsSub (s2l "triangle") (stripWs (lower p)) = true →
      motive (some (triangleBranch p (detect_units p)
        (containsAny [s2l "2d", s2l "sketch", s2l "draw", s2l "flat"] (stripWs (lower p))))))
    (k6 : containsAny cylinderKw (stripWs (lower p)) = false →
      containsSub (s2l "cube") (stripWs (lower p)) = false →
      containsAny boxKw (stripWs (lower p)) = false →
      (containsSub (s2l "hexagon") (stripWs (lower p)) ||
        containsSub (s2l "hex") (stripWs (lower p))) = false →
      containsSub (s2l "triangle") (stripWs (lower p)) = false →
      containsSub (s2l "pentagon") (stripWs (lower p)) = true →
      motive (some (pentagonBranch p (detect_units p)
        (containsAny [s2l "2d", s2l "sketch", s2l "draw", s2l "flat"] (stripWs (lower p))))))
    (k7 : containsAny cylinderKw (stripWs (lower p)) = false →
      containsSub (s2l "cube") (stripWs (lower p)) = false →
      containsAny boxKw (stripWs (lower p)) = false →
      (containsSub (s2l "hexagon") (stripWs (lower p)) ||
        containsSub (s2l "hex") (stripWs (lower p))) = false →
      containsSub (s2l "triangle") (stripWs (lower p)) = false →
      containsSub (s2l "pentagon") (stripWs (lower p)) = false →
      containsSub (s2l "octagon") (stripWs (lower p)) = true →
      motive (some (octagonBranch p (detect_units p)
        (containsAny [s2l "2d", s2l "sketch", s2l "draw", s2l "flat"] (stripWs (lower p))))))
    (k8 : containsAny cylinderKw (stripWs (lower p)) = false →
      containsSub (s2l "cube") (stripWs (lower p)) = false →
      containsAny boxKw (stripWs (lower p)) = false →
      (containsSub (s2l "hexagon") (stripWs (lower p)) ||
        containsSub (s2l "hex") (stripWs (lower p))) = false →
      containsSub (s2l "triangle") (stripWs (lower p)) = false →
      containsSub (s2l "pentagon") (stripWs (lower p)) = false →
      containsSub (s2l "octagon") (stripWs (lower p)) = false →
      containsAny ellipseKw (stripWs (lower p)) = true →
      motive (some (ellipseBranch p (detect_units p)
        (containsAny [s2l "2d", s2l "sketch", s2l "draw", s2l "flat"] (stripWs (lower p))))))
    (k9 : containsAny cylinderKw (stripWs (lower p)) = false →
      containsSub (s2l "cube") (stripWs (lower p)) = false →
      containsAny boxKw (stripWs (lower p)) = false →
      (containsSub (s2l "hexagon") (stripWs (lower p)) ||
        containsSub (s2l "hex") (stripWs (lower p))) = false →
      containsSub (s2l "triangle") (stripWs (lower p)) = false →
      containsSub (s2l "pentagon") (stripWs (lower p)) = false →
      containsSub (s2l "octagon") (stripWs (lower p)) = false →
      containsAny ellipseKw (stripWs (lower p)) = false →
      containsSub (s2l "circle") (stripWs (lower p)) = true →
      motive (some (circleBranch p (detect_units p))))
    (k10 : containsAny cylinderKw (stripWs (lower p)) = false →
      containsSub (s2l "cube") (stripWs (lower p)) = false →
      containsAny boxKw (stripWs (lower p)) = false →
      (containsSub (s2l "hexagon") (stripWs (lower p)) ||
        containsSub (s2l "hex") (stripWs (lower p))) = false →
      containsSub (s2l "triangle") (stripWs (lower p)) = false →
      containsSub (s2l "pentagon") (stripWs (lower p)) = false →
      containsSub (s2l "octagon") (stripWs (lower p)) = false →
      containsAny ellipseKw (stripWs (lower p)) = false →
      containsSub (s2l "circle") (stripWs (lower p)) = false →
      containsSub (s2l "square") (stripWs (lower p)) = true →
      motive (some (squareBranch p (detect_units p))))
    (k11 : containsAny cylinderKw (stripWs (lower p)) = false →
      containsSub (s2l "cube") (stripWs (lower p)) = false →
      containsAny boxKw (stripWs (lower p)) = false →
      (containsSub (s2l "hexagon") (stripWs (lower p)) ||
        containsSub (s2l "hex") (stripWs (lower p))) = false →
      containsSub (s2l "triangle") (stripWs (lower p)) = false →
      containsSub (s2l "pentagon") (stripWs (lower p)) = false →
      containsSub (s2l "octagon") (stripWs (lower p)) = false →
      containsAny ellipseKw (stripWs (lower p)) = false →
      containsSub (s2l "circle") (stripWs (lower p)) = false →
      containsSub (s2l "square") (stripWs (lower p)) = false →
      (containsSub (s2l "rectangle") (stripWs (lower p)) ||
        containsSub (s2l "rect") (stripWs (lower p))) = true →
      motive (some (rectangleBranch p (stripWs (lower p)) (detect_units p))))
    (k12 : containsAny cylinderKw (stripWs (lower p)) = false →
      containsSub (s2l "cube") (stripWs (lower p)) = false →
      containsAny boxKw (stripWs (lower p)) = false →
      (containsSub (s2l "hexagon") (stripWs (lower p)) ||
        containsSub (s2l "hex") (stripWs (lower p))) = false →
      containsSub (s2l "triangle") (stripWs (lower p)) = false →
      containsSub (s2l "pentagon") (stripWs (lower p)) = false →
      containsSub (s2l "octagon") (stripWs (lower p)) = false →
      containsAny ellipseKw (stripWs (lower p)) = false →
      containsSub (s2l "circle") (stripWs (lower p)) = false →
      containsSub (s2l "square") (stripWs (lower p)) = false →
      (containsSub (s2l "rectangle") (stripWs (lower p)) ||
        containsSub (s2l "rect") (stripWs (lower p))) = false →
      containsSub (s2l "slot") (stripWs (lower p)) = true →
      motive (some (slotBranch p (detect_units p)
        (containsAny [s2l "2d", s2l "sketch", s2l "draw", s2l "flat"] (stripWs (lower p))))))
    (k13 : containsAny cylinderKw (stripWs (lower p)) = false →
      containsSub (s2l "cube") (stripWs (lower p)) = false →
      containsAny boxKw (stripWs (lower p)) = false →
      (containsSub (s2l "hexagon") (stripWs (lower p)) ||
        containsSub (s2l "hex") (stripWs (lower p))) = false →
      containsSub (s2l "triangle") (stripWs (lower p)) = false →
      containsSub (s2l "pentagon") (stripWs (lower p)) = false →
      containsSub (s2l "octagon") (stripWs (lower p)) = false →
      containsAny ellipseKw (stripWs (lower p)) = false →
      containsSub (s2l "circle") (stripWs (lower p)) = false →
      containsSub (s2l "square") (stripWs (lower p)) = false →
      (containsSub (s2l "rectangle") (stripWs (lower p)) ||
        containsSub (s2l "rect") (stripWs (lower p))) = false →
      containsSub (s2l "slot") (stripWs (lower p)) = false →
      containsAny washerKw (stripWs (lower p)) = true →
      motive (some (washerBranch p (detect_units p)
        (containsAny [s2l "2d", s2l "sketch", s2l "draw", s2l "flat"] (stripWs (lower p))))))
    (k14 : containsAny cylinderKw (stripWs (lower p)) = false →
      containsSub (s2l "cube") (stripWs (lower p)) = false →
      containsAny boxKw (stripWs (lower p)) = false →
      (containsSub (s2l "hexagon") (stripWs (lower p)) ||
        containsSub (s2l "hex") (stripWs (lower p))) = false →
      containsSub (s2l "triangle") (stripWs (lower p)) = false →
      containsSub (s2l "pentagon") (stripWs (lower p)) = false →
      containsSub (s2l "octagon") (stripWs (lower p)) = false →
      containsAny ellipseKw (stripWs (lower p)) = false →
      containsSub (s2l "circle") (stripWs (lower p)) = false →
      containsSub (s2l "square") (stripWs (lower p)) = false →
      (containsSub (s2l "rectangle") (stripWs (lower p)) ||
        containsSub (s2l "rect") (stripWs (lower p))) = false →
      containsSub (s2l "slot") (stripWs (lower p)) = false →
      containsAny washerKw (stripWs (lower p)) = false →
      containsAny lshapeKw (stripWs (lower p)) = true →
      motive (some (lshapeBranch p (detect_units p)
        (containsAny [s2l "2d", s2l "sketch", s2l "draw", s2l "flat"] (stripWs (lower p))))))
    (k15 : containsAny cylinderKw (stripWs (lower p)) = false →
      containsSub (s2l "cube") (stripWs (lower p)) = false →
      containsAny boxKw (stripWs (lower p)) = false →
      (containsSub (s2l "hexagon") (stripWs (lower p)) ||
        containsSub (s2l "hex") (stripWs (lower p))) = false →
      containsSub (s2l "triangle") (stripWs (lower p)) = false →
      containsSub (s2l "pentagon") (stripWs (lower p)) = false →
      containsSub (s2l "octagon") (stripWs (lower p)) = false →
      containsAny ellipseKw (stripWs (lower p)) = false →
      containsSub (s2l "circle") (stripWs (lower p)) = false →
      containsSub (s2l "square") (stripWs (lower p)) = false →
      (containsSub (s2l "rectangle") (stripWs (lower p)) ||
        containsSub (s2l "rect") (stripWs (lower p))) = false →
      containsSub (s2l "slot") (stripWs (lower p)) = false →
      containsAny washerKw (stripWs (lower p)) = false →
      containsAny lshapeKw (stripWs (lower p)) = false →
      containsAny crossKw (stripWs (lower p)) = true →
      motive (some (crossBranch p (detect_units p)
        (containsAny [s2l "2d", s2l "sketch", s2l "draw", s2l "flat"] (stripWs (lower p))))))
    (k16 : containsAny cylinderKw (stripWs (lower p)) = false →
      containsSub (s2l "cube") (stripWs (lower p)) = false →
      containsAny boxKw (stripWs (lower p)) = false →
      (containsSub (s2l "hexagon") (stripWs (lower p)) ||
        containsSub (s2l "hex") (stripWs (lower p))) = false →
      containsSub (s2l "triangle") (stripWs (lower p)) = false →
      containsSub (s2l "pentagon") (stripWs (lower p)) = false →
      containsSub (s2l "octagon") (stripWs (lower p)) = false →
      containsAny ellipseKw (stripWs (lower p)) = false →
      containsSub (s2l "circle") (stripWs (lower p)) = false →
      containsSub (s2l "square") (stripWs (lower p)) = false →
      (containsSub (s2l "rectangle") (stripWs (lower p)) ||
        containsSub (s2l "rect") (stripWs (lower p))) = false →
      containsSub (s2l "slot") (stripWs (lower p)) = false →
      containsAny washerKw (stripWs (lower p)) = false →
      containsAny lshapeKw (stripWs (lower p)) = false →
      containsAny crossKw (stripWs (lower p)) = false →
      containsSub (s2l "star") (stripWs (lower p)) = true →
      motive (some (starBranch p (stripWs (lower p)) (detect_units p)
        (containsAny [s2l "2d", s2l "sketch", s2l "draw", s2l "flat"] (stripWs (lower p))))))
    (k17 : containsAny cylinderKw (stripWs (lower p)) = false →
      containsSub (s2l "cube") (stripWs (lower p)) = false →
      containsAny boxKw (stripWs (lower p)) = false →
      (containsSub (s2l "hexagon") (stripWs (lower p)) ||
        containsSub (s2l "hex") (stripWs (lower p))) = false →
      containsSub (s2l "triangle") (stripWs (lower p)) = false →
      containsSub (s2l "pentagon") (stripWs (lower p)) = false →
      containsSub (s2l "octagon") (stripWs (lower p)) = false →
      containsAny ellipseKw (stripWs (lower p)) = false →
      containsSub (s2l "circle") (stripWs (lower p)) = false →
      containsSub (s2l "square") (stripWs (lower p)) = false →
      (containsSub (s2l "rectangle") (stripWs (lower p)) ||
        containsSub (s2l "rect") (stripWs (lower p))) = false →
      containsSub (s2l "slot") (stripWs (lower p)) = false →
      containsAny washerKw (stripWs (lower p)) = false →
      containsAny lshapeKw (stripWs (lower p)) = false →
      containsAny crossKw (stripWs (lower p)) = false →
      containsSub (s2l "star") (stripWs (lower p)) = false →
      motive none) :
    motive (parse_prompt p) := by
  simp only [parse_prompt]
  by_cases h1 : containsAny cylinderKw (stripWs (lower p)) = true
  · rw [if_pos h1]; exact k1 h1
  rw [if_neg h1]; simp only [Bool.not_eq_true] at h1
  by_cases h2 : containsSub (s2l "cube") (stripWs (lower p)) = true
  · rw [if_pos h2]; exact k2 h1 h2
  rw [if_neg h2]; simp only [Bool.not_eq_true] at h2
  by_cases h3 : containsAny boxKw (stripWs (lower p)) = true
  · rw [if_pos h3]; exact k3 h1 h2 h3
  rw [if_neg h3]; simp only [Bool.not_eq_true] at h3
  by_cases h4 : (containsSub (s2l "hexagon") (stripWs (lower p)) ||
      containsSub (s2l "hex") (stripWs (lower p))) = true
  · rw [if_pos h4]; exact k4 h1 h2 h3 h4
  rw [if_neg h4]; simp only [Bool.not_eq_true] at h4
  by_cases h5 : containsSub (s2l "triangle") (stripWs (lower p)) = true
  · rw [if_pos h5]; exact k5 h1 h2 h3 h4 h5
  rw [if_neg h5]; simp only [Bool.not_eq_true] at h5
  by_cases h6 : containsSub (s2l "pentagon") (stripWs (lower p)) = true
  · rw [if_pos h6]; exact k6 h1 h2 h3 h4 h5 h6
  rw [if_neg h6]; simp only [Bool.not_eq_true] at h6
  by_cases h7 : containsSub (s2l "octagon") (stripWs (lower p)) = true
  · rw [if_pos h7]; exact k7 h1 h2 h3 h4 h5 h6 h7
  rw [if_neg h7]; simp only [Bool.not_eq_true] at h7
  by_cases h8 : containsAny ellipseKw (stripWs (lower p)) = true
  · rw [if_pos h8]; exact k8 h1 h2 h3 h4 h5 h6 h7 h8
  rw [if_neg h8]; simp only [Bool.not_eq_true] at h8
  by_cases h9 : containsSub (s2l "circle") (stripWs (lower p)) = true
  · rw [if_pos h9]; exact k9 h1 h2 h3 h4 h5 h6 h7 h8 h9
  rw [if_neg h9]; simp only [Bool.not_eq_true] at h9
  by_cases h10 : containsSub (s2l "square") (stripWs (lower p)) = true
  · rw [if_pos h10]; exact k10 h1 h2 h3 h4 h5 h6 h7 h8 h9 h10
  rw [if_neg h10]; simp only [Bool.not_eq_true] at h10
  by_cases h11 : (containsSub (s2l "rectangle") (stripWs (lower p)) ||
      containsSub (s2l "rect") (stripWs (lower p))) = true
  · rw [if_pos h11]; exact k11 h1 h2 h3 h4 h5 h6 h7 h8 h9 h10 h11
  rw [if_neg h11]; simp only [Bool.not_eq_true] at h11
  by_cases h12 : containsSub (s2l "slot") (stripWs (lower p)) = true
  · rw [if_pos h12]; exact k12 h1 h2 h3 h4 h5 h6 h7 h8 h9 h10 h11 h12
  rw [if_neg h12]; simp only [Bool.not_eq_true] at h12
  by_cases h13 : containsAny washerKw (stripWs (lower p)) = true
  · rw [if_pos h13]; exact k13 h1 h2 h3 h4 h5 h6 h7 h8 h9 h10 h11 h12 h13
  rw [if_neg h13]; simp only [Bool.not_eq_true] at h13
  by_cases h14 : containsAny lshapeKw (stripWs (lower p)) = true
  · rw [if_pos h14]; exact k14 h1 h2 h3 h4 h5 h6 h7 h8 h9 h10 h11 h12 h13 h14
  rw [if_neg h14]; simp only [Bool.not_eq_true] at h14
  by_cases h15 : containsAny crossKw (stripWs (lower p)) = true
  · rw [if_pos h15]; exact k15 h1 h2 h3 h4 h5 h6 h7 h8 h9 h10 h11 h12 h13 h14 h15
  rw [if_neg h15]; simp only [Bool.not_eq_true] at h15
  by_cases h16 : containsSub (s2l "star") (stripWs (lower p)) = true
  · rw [if_pos h16]; exact k16 h1 h2 h3 h4 h5 h6 h7 h8 h9 h10 h11 h12 h13 h14 h15 h16
  rw [if_neg h16]; simp only [Bool.not_eq_true] at h16
  exact k17 h1 h2 h3 h4 h5 h6 h7 h8 h9 h10 h11 h12 h13 h14 h15 h16

/-- Occurrence of some trigger of the flat priority list is the disjunction of
the 16 rule-level trigger tests of `parse_prompt`. -/
theorem containsAny_allTriggers (pl : List Char) :
    containsAny allTriggers pl = false ↔
      (containsAny cylinderKw pl = false ∧ containsSub (s2l "cube") pl = false ∧
       containsAny boxKw pl = false ∧
       (containsSub (s2l "hexagon") pl || containsSub (s2l "hex") pl) = false ∧
       containsSub (s2l "triangle") pl = false ∧ containsSub (s2l "pentagon") pl = false ∧
       containsSub (s2l "octagon") pl = false ∧ containsAny ellipseKw pl = false ∧
       containsSub (s2l "circle") pl = false ∧ containsSub (s2l "square") pl = false ∧
       (containsSub (s2l "rectangle") pl || containsSub (s2l "rect") pl) = false ∧
       containsSub (s2l "slot") pl = false ∧ containsAny washerKw pl = false ∧
       containsAny lshapeKw pl = false ∧ containsAny crossKw pl = false ∧
       containsSub (s2l "star") pl = false) := by
  constructor
  · intro h
    simp [allTriggers, containsAny, cylinderKw, boxKw, ellipseKw, washerKw, lshapeKw,
      crossKw] at h
    simp [containsAny, cylinderKw, boxKw, ellipseKw, washerKw, lshapeKw, crossKw]
    tauto
  · intro h
    simp [containsAny, cylinderKw, boxKw, ellipseKw, washerKw, lshapeKw, crossKw] at h
    simp [allTriggers, containsAny, cylinderKw, boxKw, ellipseKw, washerKw, lshapeKw, crossKw]
    tauto

/-- C1: `parse_prompt` is a total function (the Lean embedding is a plain
function, so it returns normally on every input); it returns `none` exactly
when none of the shape trigger keywords of the priority table occurs
case-insensitively as a substring of the (stripped) prompt; and every
non-`none` result carries every required parameter key of its shape kind. -/
theorem C1_total_none_iff_required_keys (p : List Char) :
    (parse_prompt p = none ↔ containsAny allTriggers (stripWs (lower p)) = false)
    ∧ (∀ s, parse_prompt p = some s →
        ∀ k ∈ requiredKeys s.shape_type, k ∈ s.params.map Prod.fst) := by
  constructor
  · rw [containsAny_allTriggers]
    refine parse_cases (motive := fun o =>
      (o = none ↔
        containsAny cylinderKw (stripWs (lower p)) = false ∧
        containsSub (s2l "cube") (stripWs (lower p)) = false ∧
        containsAny boxKw (stripWs (lower p)) = false ∧
        (containsSub (s2l "hexagon") (stripWs (lower p)) ||
          containsSub (s2l "hex") (stripWs (lower p))) = false ∧
        containsSub (s2l "triangle") (stripWs (lower p)) = false ∧
        containsSub (s2l "pentagon") (stripWs (lower p)) = false ∧
        containsSub (s2l "octagon") (stripWs (lower p)) = false ∧
        containsAny ellipseKw (stripWs (lower p)) = false ∧
        containsSub (s2l "circle") (stripWs (lower p)) = false ∧
        containsSub (s2l "square") (stripWs (lower p)) = false ∧
        (containsSub (s2l "rectangle") (stripWs (lower p)) ||
          containsSub (s2l "rect") (stripWs (lower p))) = false ∧
        containsSub (s2l "slot") (stripWs (lower p)) = false ∧
        containsAny washerKw (stripWs (lower p)) = false ∧
        containsAny lshapeKw (stripWs (lower p)) = false ∧
        containsAny crossKw (stripWs (lower p)) = false ∧
        containsSub (s2l "star") (stripWs (lower p)) = false)) p
      ?_ ?_ ?_ ?_ ?_ ?_ ?_ ?_ ?_ ?_ ?_ ?_ ?_ ?_ ?_ ?_ ?_ <;>
      intros <;> constructor <;> intro hcon <;> simp_all
  · refine parse_cases (motive := fun o => ∀ s, o = some s →
      ∀ k ∈ requiredKeys s.shape_type, k ∈ s.params.map Prod.fst) p
      ?_ ?_ ?_ ?_ ?_ ?_ ?_ ?_ ?_ ?_ ?_ ?_ ?_ ?_ ?_ ?_ ?_
    · intro _ s hs
      rw [Option.some.injEq] at hs; subst hs
      rw [(cylinderBranch_eval ..).1, (cylinderBranch_eval ..).2.1]; decide
    · intro _ _ s hs
      rw [Option.some.injEq] at hs; subst hs
      rw [(cubeBranch_eval ..).1, (cubeBranch_eval ..).2.1]; decide
    · intro _ _ _ s hs
      rw [Option.some.injEq] at hs; subst hs
      rw [(boxBranch_eval ..).1, (boxBranch_eval ..).2.1]; decide
    · intro _ _ _ _ s hs
      rw [Option.some.injEq] at hs; subst hs
      rw [(hexagonBranch_eval ..).1, (hexagonBranch_eval ..).2.1]; decide
    · intro _ _ _ _ _ s hs
      rw [Option.some.injEq] at hs; subst hs
      rw [(triangleBranch_eval ..).1, (triangleBranch_eval ..).2.1]; decide
    · intro _ _ _ _ _ _ s hs
      rw [Option.some.injEq] at hs; subst hs
      rw [(pentagonBranch_eval ..).1, (pentagonBranch_eval ..).2.1]; decide
    · intro _ _ _ _ _ _ _ s hs
      rw [Option.some.injEq] at hs; subst hs
      rw [(octagonBranch_eval ..).1, (octagonBranch_eval ..).2.1]; decide
    · intro _ _ _ _ _ _ _ _ s hs
      rw [Option.some.injEq] at hs; subst hs
      rw [(ellipseBranch_eval ..).1, (ellipseBranch_eval ..).2.1]; decide
    · intro _ _ _ _ _ _ _ _ _ s hs
      rw [Option.some.injEq] at hs; subst hs
      rcases circleBranch_eval p (detect_units p) with ⟨e1, -, e2⟩ | ⟨e1, -, e2⟩ <;>
        rw [e1, e2] <;> decide
    · intro _ _ _ _ _ _ _ _ _ _ s hs
      rw [Option.some.injEq] at hs; subst hs
      rcases squareBranch_eval p (detect_units p) with ⟨e1, -, e2⟩ | ⟨e1, -, e2⟩ <;>
        rw [e1, e2] <;> decide
    · intro _ _ _ _ _ _ _ _ _ _ _ s hs
      rw [Option.some.injEq] at hs; subst hs
      rcases rectangleBranch_eval p (stripWs (lower p)) (detect_units p) with
        ⟨e1, -, e2⟩ | ⟨e1, -, e2⟩ <;> rw [e1, e2] <;> decide
    · intro _ _ _ _ _ _ _ _ _ _ _ _ s hs
      rw [Option.some.injEq] at hs; subst hs
      rw [(slotBranch_eval ..).1, (slotBranch_eval ..).2.1]; decide
    · intro _ _ _ _ _ _ _ _ _ _ _ _ _ s hs
      rw [Option.some.injEq] at hs; subst hs
      rw [(washerBranch_eval ..).1, (washerBranch_eval ..).2.1]; decide
    · intro _ _ _ _ _ _ _ _ _ _ _ _ _ _ s hs
      rw [Option.some.injEq] at hs; subst hs
      rw [(lshapeBranch_eval ..).1, (lshapeBranch_eval ..).2.1]; decide
    · intro _ _ _ _ _ _ _ _ _ _ _ _ _ _ _ s hs
      rw [Option.some.injEq] at hs; subst hs
      rw [(crossBranch_eval ..).1, (crossBranch_eval ..).2.1]; decide
    · intro _ _ _ _ _ _ _ _ _ _ _ _ _ _ _ _ s hs
      rw [Option.some.injEq] at hs; subst hs
      rw [(starBranch_eval ..).1, (starBranch_eval ..).2.1]; decide
    · intro _ _ _ _ _ _ _ _ _ _ _ _ _ _ _ _ s hs
      exact absurd hs (by simp)

/-- Witness for C1 at the concrete prompt "cube". -/
theorem C1_witness :
    "size" ∈ (ParsedShape.mk "cube" [("size", ⟨2, 2⟩)] (s2l "mm") false).params.map Prod.fst :=
  (C1_total_none_iff_required_keys (s2l "cube")).2
    (ParsedShape.mk "cube" [("size", ⟨2, 2⟩)] (s2l "mm") false) (by decide) "size" (by decide)

/-- C6: every non-null `parse_prompt` result has its shape kind in the fixed
closed set of the spec's data model (the spec's `l_shape` label is the
source's `'lshape'` string). -/
theorem C6_closed_shape_kind_set (p : List Char) (s : ParsedShape)
    (h : parse_prompt p = some s) :
    s.shape_type ∈ ["cylinder", "cube", "box", "hexagon", "triangle", "pentagon",
      "octagon", "ellipse", "circle", "square", "rectangle", "slot", "washer",
      "lshape", "cross", "star"] := by
  revert h
  refine parse_cases (motive := fun o => o = some s →
    s.shape_type ∈ ["cylinder", "cube", "box", "hexagon", "triangle", "pentagon",
      "octagon", "ellipse", "circle", "square", "rectangle", "slot", "washer",
      "lshape", "cross", "star"]) p ?_ ?_ ?_ ?_ ?_ ?_ ?_ ?_ ?_ ?_ ?_ ?_ ?_ ?_ ?_ ?_ ?_
  · intro _ hs
    rw [Option.some.injEq] at hs; subst hs
    rw [(cylinderBranch_eval ..).1]; decide
  · intro _ _ hs
    rw [Option.some.injEq] at hs; subst hs
    rw [(cubeBranch_eval ..).1]; decide
  · intro _ _ _ hs
    rw [Option.some.injEq] at hs; subst hs
    rw [(boxBranch_eval ..).1]; decide
  · intro _ _ _ _ hs
    rw [Option.some.injEq] at hs; subst hs
    rw [(hexagonBranch_eval ..).1]; decide
  · intro _ _ _ _ _ hs
    rw [Option.some.injEq] at hs; subst hs
    rw [(triangleBranch_eval ..).1]; decide
  · intro _ _ _ _ _ _ hs
    rw [Option.some.injEq] at hs; subst hs
    rw [(pentagonBranch_eval ..).1]; decide
  · intro _ _ _ _ _ _ _ hs
    rw [Option.some.injEq] at hs; subst hs
    rw [(octagonBranch_eval ..).1]; decide
  · intro _ _ _ _ _ _ _ _ hs
    rw [Option.some.injEq] at hs; subst hs
    rw [(ellipseBranch_eval ..).1]; decide
  · intro _ _ _ _ _ _ _ _ _ hs
    rw [Option.some.injEq] at hs; subst hs
    rcases circleBranch_eval p (detect_units p) with ⟨e1, -, -⟩ | ⟨e1, -, -⟩ <;>
      rw [e1] <;> decide
  · intro _ _ _ _ _ _ _ _ _ _ hs
    rw [Option.some.injEq] at hs; subst hs
    rcases squareBranch_eval p (detect_units p) with ⟨e1, -, -⟩ | ⟨e1, -, -⟩ <;>
      rw [e1] <;> decide
  · intro _ _ _ _ _ _ _ _ _ _ _ hs
    rw [Option.some.injEq] at hs; subst hs
    rcases rectangleBranch_eval p (stripWs (lower p)) (detect_units p) with
      ⟨e1, -, -⟩ | ⟨e1, -, -⟩ <;> rw [e1] <;> decide
  · intro _ _ _ _ _ _ _ _ _ _ _ _ hs
    rw [Option.some.injEq] at hs; subst hs
    rw [(slotBranch_eval ..).1]; decide
  · intro _ _ _ _ _ _ _ _ _ _ _ _ _ hs
    rw [Option.some.injEq] at hs; subst hs
    rw [(washerBranch_eval ..).1]; decide
  · intro _ _ _ _ _ _ _ _ _ _ _ _ _ _ hs
    rw [Option.some.injEq] at hs; subst hs
    rw [(lshapeBranch_eval ..).1]; decide
  · intro _ _ _ _ _ _ _ _ _ _ _ _ _ _ _ hs
    rw [Option.some.injEq] at hs; subst hs
    rw [(crossBranch_eval ..).1]; decide
  · intro _ _ _ _ _ _ _ _ _ _ _ _ _ _ _ _ hs
    rw [Option.some.injEq] at hs; subst hs
    rw [(starBranch_eval ..).1]; decide
  · intro _ _ _ _ _ _ _ _ _ _ _ _ _ _ _ _ hs
    exact absurd hs (by simp)

/-- Witness for C6 at the concrete prompt "cube". -/
theorem C6_witness :
    (ParsedShape.mk "cube" [("size", ⟨2, 2⟩)] (s2l "mm") false).shape_type ∈
      ["cylinder", "cube", "box", "hexagon", "triangle", "pentagon",
       "octagon", "ellipse", "circle", "square", "rectangle", "slot", "washer",
       "lshape", "cross", "star"] :=
  C6_closed_shape_kind_set (s2l "cube")
    (ParsedShape.mk "cube" [("size", ⟨2, 2⟩)] (s2l "mm") false) (by decide)

/-- View of a parse result with its parameter values as rationals, for
comparison against the spec's decimal literals. -/
def shapeView (s : ParsedShape) : String × List (String × ℚ) × Bool :=
  (s.shape_type, s.params.map (fun kv => (kv.1, kv.2.toRat)), s.is_2d)

/-- C2: for every shape kind of the table, parsing the bare trigger keyword
alone returns exactly the required parameter keys, each equal to its literal
default from the table (values read as rationals in meters). -/
theorem C2_default_completeness :
    (parse_prompt (s2l "cylinder")).map shapeView =
      some ("cylinder", [("radius", 0.01), ("height", 0.02)], false) ∧
    (parse_prompt (s2l "cube")).map shapeView =
      some ("cube", [("size", 0.02)], false) ∧
    (parse_prompt (s2l "box")).map shapeView =
      some ("box", [("width", 0.02), ("height", 0.02), ("depth", 0.02)], false) ∧
    (parse_prompt (s2l "hexagon")).map shapeView =
      some ("hexagon", [("radius", 0.01), ("height", 0.01)], false) ∧
    (parse_prompt (s2l "triangle")).map shapeView =
      some ("triangle", [("base", 0.02), ("tri_height", 0.02), ("depth", 0.01)], false) ∧
    (parse_prompt (s2l "pentagon")).map shapeView =
      some ("pentagon", [("radius", 0.01), ("height", 0.01)], false) ∧
    (parse_prompt (s2l "octagon")).map shapeView =
      some ("octagon", [("radius", 0.01), ("height", 0.01)], false) ∧
    (parse_prompt (s2l "ellipse")).map shapeView =
      some ("ellipse", [("major", 0.02), ("minor", 0.01), ("height", 0.01)], false) ∧
    (parse_prompt (s2l "circle")).map shapeView =
      some ("circle", [("radius", 0.01)], true) ∧
    (parse_prompt (s2l "square")).map shapeView =
      some ("square", [("size", 0.02)], true) ∧
    (parse_prompt (s2l "rectangle")).map shapeView =
      some ("rectangle", [("width", 0.02), ("length", 0.01)], true) ∧
    (parse_prompt (s2l "slot")).map shapeView =
      some ("slot", [("length", 0.03), ("width", 0.01), ("height", 0.005)], false) ∧
    (parse_prompt (s2l "washer")).map shapeView =
      some ("washer", [("outer", 0.02), ("inner", 0.01), ("height", 0.005)], false) ∧
    (parse_prompt (s2l "l-shape")).map shapeView =
      some ("lshape", [("width", 0.02), ("length", 0.02), ("thickness", 0.003),
                       ("depth", 0.01)], false) ∧
    (parse_prompt (s2l "cross")).map shapeView =
      some ("cross", [("size", 0.02), ("thickness", 0.005), ("depth", 0.005)], false) ∧
    (parse_prompt (s2l "star")).map shapeView =
      some ("star", [("outer", 0.02), ("inner", 0.008), ("points", 5), ("height", 0.005)],
            false) := by
  refine ⟨?_, ?_, ?_, ?_, ?_, ?_, ?_, ?_, ?_, ?_, ?_, ?_, ?_, ?_, ?_, ?_⟩
  · rw [show parse_prompt (s2l "cylinder") = some ⟨"cylinder",
      [("radius", ⟨1, 2⟩), ("height", ⟨2, 2⟩)], s2l "mm", false⟩ from by decide]
    simp [shapeView, Dec.toRat]
    norm_num
  · rw [show parse_prompt (s2l "cube") = some ⟨"cube",
      [("size", ⟨2, 2⟩)], s2l "mm", false⟩ from by decide]
    simp [shapeView, Dec.toRat]
    norm_num
  · rw [show parse_prompt (s2l "box") = some ⟨"box",
      [("width", ⟨2, 2⟩), ("height", ⟨2, 2⟩), ("depth", ⟨2, 2⟩)], s2l "mm", false⟩ from by decide]
    simp [shapeView, Dec.toRat]
    norm_num
  · rw [show parse_prompt (s2l "hexagon") = some ⟨"hexagon",
      [("radius", ⟨1, 2⟩), ("height", ⟨1, 2⟩)], s2l "mm", false⟩ from by decide]
    simp [shapeView, Dec.toRat]
    norm_num
  · rw [show parse_prompt (s2l "triangle") = some ⟨"triangle",
      [("base", ⟨2, 2⟩), ("tri_height", ⟨2, 2⟩), ("depth", ⟨1, 2⟩)], s2l "mm", false⟩
      from by decide]
    simp [shapeView, Dec.toRat]
    norm_num
  · rw [show parse_prompt (s2l "pentagon") = some ⟨"pentagon",
      [("radius", ⟨1, 2⟩), ("height", ⟨1, 2⟩)], s2l "mm", false⟩ from by decide]
    simp [shapeView, Dec.toRat]
    norm_num
  · rw [show parse_prompt (s2l "octagon") = some ⟨"octagon",
      [("radius", ⟨1, 2⟩), ("height", ⟨1, 2⟩)], s2l "mm", false⟩ from by decide]
    simp [shapeView, Dec.toRat]
    norm_num
  · rw [show parse_prompt (s2l "ellipse") = some ⟨"ellipse",
      [("major", ⟨2, 2⟩), ("minor", ⟨1, 2⟩), ("height", ⟨1, 2⟩)], s2l "mm", false⟩
      from by decide]
    simp [shapeView, Dec.toRat]
    norm_num
  · rw [show parse_prompt (s2l "circle") = some ⟨"circle",
      [("radius", ⟨1, 2⟩)], s2l "mm", true⟩ from by decide]
    simp [shapeView, Dec.toRat]
    norm_num
  · rw [show parse_prompt (s2l "square") = some ⟨"square",
      [("size", ⟨2, 2⟩)], s2l "mm", true⟩ from by decide]
    simp [shapeView, Dec.toRat]
    norm_num
  · rw [show parse_prompt (s2l "rectangle") = some ⟨"rectangle",
      [("width", ⟨2, 2⟩), ("length", ⟨1, 2⟩)], s2l "mm", true⟩ from by decide]
    simp [shapeView, Dec.toRat]
    norm_num
  · rw [show parse_prompt (s2l "slot") = some ⟨"slot",
      [("length", ⟨3, 2⟩), ("width", ⟨1, 2⟩), ("height", ⟨5, 3⟩)], s2l "mm", false⟩
      from by decide]
    simp [shapeView, Dec.toRat]
    norm_num
  · rw [show parse_prompt (s2l "washer") = some ⟨"washer",
      [("outer", ⟨2, 2⟩), ("inner", ⟨1, 2⟩), ("height", ⟨5, 3⟩)], s2l "mm", false⟩
      from by decide]
    simp [shapeView, Dec.toRat]
    norm_num
  · rw [show parse_prompt (s2l "l-shape") = some ⟨"lshape",
      [("width", ⟨2, 2⟩), ("length", ⟨2, 2⟩), ("thickness", ⟨3, 3⟩), ("depth", ⟨1, 2⟩)],
      s2l "mm", false⟩ from by decide]
    simp [shapeView, Dec.toRat]
    norm_num
  · rw [show parse_prompt (s2l "cross") = some ⟨"cross",
      [("size", ⟨2, 2⟩), ("thickness", ⟨5, 3⟩), ("depth", ⟨5, 3⟩)], s2l "mm", false⟩
      from by decide]
    simp [shapeView, Dec.toRat]
    norm_num
  · rw [show parse_prompt (s2l "star") = some ⟨"star",
      [("outer", ⟨2, 2⟩), ("inner", ⟨8, 3⟩), ("points", ⟨5, 0⟩), ("height", ⟨5, 3⟩)],
      s2l "mm", false⟩ from by decide]
    simp [shapeView, Dec.toRat]
    norm_num

/-- C7: a unit token adjacent to a number wins over the prompt-wide detected
default unit: "cube size 2in" gives size 0.0508 = 2 × 0.0254 even though the
prompt-wide detected unit of that prompt is millimeter. -/
theorem C7_unit_adjacency_precedence :
    (parse_prompt (s2l "cube size 2in")).map shapeView =
      some ("cube", [("size", 0.0508)], false) ∧
    detect_units (s2l "cube size 2in") = s2l "mm" ∧
    (0.0508 : ℚ) = 2 * 0.0254 := by
  refine ⟨?_, by decide, by norm_num⟩
  rw [show parse_prompt (s2l "cube size 2in") = some ⟨"cube",
    [("size", ⟨508, 4⟩)], s2l "mm", false⟩ from by decide]
  simp [shapeView, Dec.toRat]
  norm_num

/-- C8: a circle prompt with an extractable height is reclassified as a
cylinder: "circle radius 5mm height 2mm" parses to a cylinder with
radius 0.005 and height 0.002. -/
theorem C8_circle_height_becomes_cylinder :
    (parse_prompt (s2l "circle radius 5mm height 2mm")).map shapeView =
      some ("cylinder", [("radius", 0.005), ("height", 0.002)], false) := by
  rw [show parse_prompt (s2l "circle radius 5mm height 2mm") = some ⟨"cylinder",
    [("radius", ⟨5, 3⟩), ("height", ⟨2, 3⟩)], s2l "mm", false⟩ from by decide]
  simp [shapeView, Dec.toRat]
  norm_num

/-- C9: the one-letter keyword `r` matches as a bare substring, here the
trailing "r" of the word "cylinder" followed by the number, so "cylinder 5"
gets radius 0.005 (5 read as millimeters) and the default height 0.02. -/
theorem C9_bare_single_letter_keyword :
    (extract_dimension (s2l "cylinder 5") [s2l "radius", s2l "r"]).map Dec.toRat =
      some 0.005 ∧
    (parse_prompt (s2l "cylinder 5")).map shapeView =
      some ("cylinder", [("radius", 0.005), ("height", 0.02)], false) := by
  constructor
  · rw [show extract_dimension (s2l "cylinder 5") [s2l "radius", s2l "r"] =
      some ⟨5, 3⟩ from by decide]
    simp [Dec.toRat]
    norm_num
  · rw [show parse_prompt (s2l "cylinder 5") = some ⟨"cylinder",
      [("radius", ⟨5, 3⟩), ("height", ⟨2, 2⟩)], s2l "mm", false⟩ from by decide]
    simp [shapeView, Dec.toRat]
    norm_num

/-- C3 counterexample: at the prompt "box 10 20", keyword extraction fails for
all three box parameters and the number sequence has values 0.01 and 0.02 at
positions 0 and 1; the claim then demands width 0.01 and height 0.02 by
positional fallback, but the source fills positionally only when at least
three numbers are present, so the returned box is fully defaulted
(0.02, 0.02, 0.02), not the claim-predicted (0.01, 0.02, 0.02). -/
theorem C3_counterexample :
    extract_dimension (s2l "box 10 20") [s2l "width", s2l "wide", s2l "w"] = none ∧
    extract_dimension (s2l "box 10 20") [s2l "height", s2l "tall", s2l "h"] = none ∧
    extract_dimension (s2l "box 10 20")
      [s2l "depth", s2l "deep", s2l "long", s2l "length", s2l "d", s2l "l"] = none ∧
    (extract_all_numbers (s2l "box 10 20")).map Dec.toRat = [0.01, 0.02] ∧
    (parse_prompt (s2l "box 10 20")).map shapeView =
      some ("box", [("width", 0.02), ("height", 0.02), ("depth", 0.02)], false) ∧
    (parse_prompt (s2l "box 10 20")).map shapeView ≠
      some ("box", [("width", 0.01), ("height", 0.02), ("depth", 0.02)], false) := by
  refine ⟨by decide, by decide, by decide, ?_, ?_, ?_⟩
  · rw [show extract_all_numbers (s2l "box 10 20") = [⟨1, 2⟩, ⟨2, 2⟩] from by decide]
    simp [Dec.toRat]
    norm_num
  · rw [show parse_prompt (s2l "box 10 20") = some ⟨"box",
      [("width", ⟨2, 2⟩), ("height", ⟨2, 2⟩), ("depth", ⟨2, 2⟩)], s2l "mm", false⟩
      from by decide]
    simp [shapeView, Dec.toRat]
    norm_num
  · rw [show parse_prompt (s2l "box 10 20") = some ⟨"box",
      [("width", ⟨2, 2⟩), ("height", ⟨2, 2⟩), ("depth", ⟨2, 2⟩)], s2l "mm", false⟩
      from by decide]
    simp [shapeView, Dec.toRat]
    norm_num

/-- C3 (amended): positional fallback is subject to shape-specific arity
guards; for the box branch (the shape of the counterexample), when keyword
extraction fails and there is no `NxNxN` pattern, the ordered number sequence
fills width, height, depth positionally exactly when it has at least three
values (and nonzero values are taken as given), while with exactly two values
no positional filling happens and all three parameters get the default 0.02;
the claim's example parse("box 10 20 30") = (0.01, 0.02, 0.03) holds. -/
theorem C3_amended_positional_fallback :
    (∀ (p : List Char) (a b c : Dec) (rest : List Dec),
      containsAny cylinderKw (stripWs (lower p)) = false →
      containsSub (s2l "cube") (stripWs (lower p)) = false →
      containsAny boxKw (stripWs (lower p)) = true →
      extract_dimension p [s2l "width", s2l "wide", s2l "w"] = none →
      extract_dimension p [s2l "height", s2l "tall", s2l "h"] = none →
      extract_dimension p [s2l "depth", s2l "deep", s2l "long", s2l "length", s2l "d", s2l "l"]
        = none →
      axb3 (stripWs (lower p)) = none →
      extract_all_numbers p = a :: b :: c :: rest →
      a.num ≠ 0 → b.num ≠ 0 → c.num ≠ 0 →
      parse_prompt p = some ⟨"box", [("width", a), ("height", b), ("depth", c)],
        detect_units p, false⟩) ∧
    (∀ p : List Char,
      containsAny cylinderKw (stripWs (lower p)) = false →
      containsSub (s2l "cube") (stripWs (lower p)) = false →
      containsAny boxKw (stripWs (lower p)) = true →
      extract_dimension p [s2l "width", s2l "wide", s2l "w"] = none →
      extract_dimension p [s2l "height", s2l "tall", s2l "h"] = none →
      extract_dimension p [s2l "depth", s2l "deep", s2l "long", s2l "length", s2l "d", s2l "l"]
        = none →
      axb3 (stripWs (lower p)) = none →
      (extract_all_numbers p).length = 2 →
      parse_prompt p = some ⟨"box", [("width", ⟨2, 2⟩), ("height", ⟨2, 2⟩),
        ("depth", ⟨2, 2⟩)], detect_units p, false⟩) ∧
    (parse_prompt (s2l "box 10 20 30")).map shapeView =
      some ("box", [("width", 0.01), ("height", 0.02), ("depth", 0.03)], false) := by
  refine ⟨?_, ?_, ?_⟩
  · intro p a b c rest h1 h2 h3 hw hh hd hx hn ha hb hc
    have hbox : parse_prompt p = some (boxBranch p (stripWs (lower p)) (detect_units p)) := by
      refine parse_cases (motive := fun o =>
        o = some (boxBranch p (stripWs (lower p)) (detect_units p))) p
        ?_ ?_ ?_ ?_ ?_ ?_ ?_ ?_ ?_ ?_ ?_ ?_ ?_ ?_ ?_ ?_ ?_ <;> intros <;> simp_all
    rw [hbox]
    simp only [boxBranch]
    rw [hw, hh, hd, hx, hn]
    simp [pyOrV, ha, hb, hc]
  · intro p h1 h2 h3 hw hh hd hx hn
    have hbox : parse_prompt p = some (boxBranch p (stripWs (lower p)) (detect_units p)) := by
      refine parse_cases (motive := fun o =>
        o = some (boxBranch p (stripWs (lower p)) (detect_units p))) p
        ?_ ?_ ?_ ?_ ?_ ?_ ?_ ?_ ?_ ?_ ?_ ?_ ?_ ?_ ?_ ?_ ?_ <;> intros <;> simp_all
    rw [hbox]
    simp only [boxBranch]
    rw [hw, hh, hd, hx]
    simp [pyOrV, hn]
  · rw [show parse_prompt (s2l "box 10 20 30") = some ⟨"box",
      [("width", ⟨1, 2⟩), ("height", ⟨2, 2⟩), ("depth", ⟨3, 2⟩)], s2l "mm", false⟩
      from by decide]
    simp [shapeView, Dec.toRat]
    norm_num

/-- Witness for the amended C3 at the concrete prompt "box 10 20 30". -/
theorem C3_amended_witness :
    parse_prompt (s2l "box 10 20 30") = some ⟨"box",
      [("width", ⟨1, 2⟩), ("height", ⟨2, 2⟩), ("depth", ⟨3, 2⟩)], s2l "mm", false⟩ := by
  have h := C3_amended_positional_fallback.1 (s2l "box 10 20 30") ⟨1, 2⟩ ⟨2, 2⟩ ⟨3, 2⟩ []
    (by decide) (by decide) (by decide) (by decide) (by decide) (by decide) (by decide)
    (by decide) (by decide) (by decide) (by decide)
  rw [h]
  decide

/-- C4 counterexample: "2d cube" contains the 2D request word "2d" and is not
within the claim's circle/square/rectangle exception, yet the parsed result
has is_2d = false (the cube branch of the source never passes the 2D flag). -/
theorem C4_counterexample :
    containsSub (s2l "2d") (stripWs (lower (s2l "2d cube"))) = true ∧
    (parse_prompt (s2l "2d cube")).map ParsedShape.is_2d = some false := by decide

/-- C4 (amended): on prompts containing a 2D request word, the parsed result
has is_2d = true except when the returned kind is cylinder, cube or box: the
cylinder, cube and box branches always return is_2d = false, and the
circle/square/rectangle branches return is_2d = false exactly when a
height/depth extraction reclassifies them to cylinder/cube/box. -/
theorem C4_amended_is2d (p : List Char) (s : ParsedShape)
    (h : parse_prompt p = some s)
    (h2d : containsAny [s2l "2d", s2l "sketch", s2l "draw", s2l "flat"]
      (stripWs (lower p)) = true)
    (hk : s.shape_type ∉ ["cylinder", "cube", "box"]) :
    s.is_2d = true := by
  revert h
  refine parse_cases (motive := fun o => o = some s → s.is_2d = true) p
    ?_ ?_ ?_ ?_ ?_ ?_ ?_ ?_ ?_ ?_ ?_ ?_ ?_ ?_ ?_ ?_ ?_
  · intro _ hs
    rw [Option.some.injEq] at hs; subst hs
    rw [(cylinderBranch_eval ..).1] at hk
    exact absurd (by decide) hk
  · intro _ _ hs
    rw [Option.some.injEq] at hs; subst hs
    rw [(cubeBranch_eval ..).1] at hk
    exact absurd (by decide) hk
  · intro _ _ _ hs
    rw [Option.some.injEq] at hs; subst hs
    rw [(boxBranch_eval ..).1] at hk
    exact absurd (by decide) hk
  · intro _ _ _ _ hs
    rw [Option.some.injEq] at hs; subst hs
    rw [(hexagonBranch_eval ..).2.2]
    exact h2d
  · intro _ _ _ _ _ hs
    rw [Option.some.injEq] at hs; subst hs
    rw [(triangleBranch_eval ..).2.2]
    exact h2d
  · intro _ _ _ _ _ _ hs
    rw [Option.some.injEq] at hs; subst hs
    rw [(pentagonBranch_eval ..).2.2]
    exact h2d
  · intro _ _ _ _ _ _ _ hs
    rw [Option.some.injEq] at hs; subst hs
    rw [(octagonBranch_eval ..).2.2]
    exact h2d
  · intro _ _ _ _ _ _ _ _ hs
    rw [Option.some.injEq] at hs; subst hs
    rw [(ellipseBranch_eval ..).2.2]
    exact h2d
  · intro _ _ _ _ _ _ _ _ _ hs
    rw [Option.some.injEq] at hs; subst hs
    rcases circleBranch_eval p (detect_units p) with ⟨e1, -, -⟩ | ⟨-, e2, -⟩
    · rw [e1] at hk
      exact absurd (by decide) hk
    · exact e2
  · intro _ _ _ _ _ _ _ _ _ _ hs
    rw [Option.some.injEq] at hs; subst hs
    rcases squareBranch_eval p (detect_units p) with ⟨e1, -, -⟩ | ⟨-, e2, -⟩
    · rw [e1] at hk
      exact absurd (by decide) hk
    · exact e2
  · intro _ _ _ _ _ _ _ _ _ _ _ hs
    rw [Option.some.injEq] at hs; subst hs
    rcases rectangleBranch_eval p (stripWs (lower p)) (detect_units p) with
      ⟨e1, -, -⟩ | ⟨-, e2, -⟩
    · rw [e1] at hk
      exact absurd (by decide) hk
    · exact e2
  · intro _ _ _ _ _ _ _ _ _ _ _ _ hs
    rw [Option.some.injEq] at hs; subst hs
    rw [(slotBranch_eval ..).2.2]
    exact h2d
  · intro _ _ _ _ _ _ _ _ _ _ _ _ _ hs
    rw [Option.some.injEq] at hs; subst hs
    rw [(washerBranch_eval ..).2.2]
    exact h2d
  · intro _ _ _ _ _ _ _ _ _ _ _ _ _ _ hs
    rw [Option.some.injEq] at hs; subst hs
    rw [(lshapeBranch_eval ..).2.2]
    exact h2d
  · intro _ _ _ _ _ _ _ _ _ _ _ _ _ _ _ hs
    rw [Option.some.injEq] at hs; subst hs
    rw [(crossBranch_eval ..).2.2]
    exact h2d
  · intro _ _ _ _ _ _ _ _ _ _ _ _ _ _ _ _ hs
    rw [Option.some.injEq] at hs; subst hs
    rw [(starBranch_eval ..).2.2]
    exact h2d
  · intro _ _ _ _ _ _ _ _ _ _ _ _ _ _ _ _ hs
    exact absurd hs (by simp)

/-- Witness for the amended C4 at the concrete prompt "2d star". -/
theorem C4_amended_witness :
    (ParsedShape.mk "star" [("outer", ⟨2, 3⟩), ("inner", ⟨8, 4⟩), ("points", ⟨5, 0⟩),
      ("height", ⟨5, 3⟩)] (s2l "mm") true).is_2d = true :=
  C4_amended_is2d (s2l "2d star")
    (ParsedShape.mk "star" [("outer", ⟨2, 3⟩), ("inner", ⟨8, 4⟩), ("points", ⟨5, 0⟩),
      ("height", ⟨5, 3⟩)] (s2l "mm") true)
    (by decide) (by decide) (by decide)

/-- The priority table of the spec (trigger-keyword set and rule name per
row, in the spec's fixed priority order) — spec-side definition (§4 table). -/
def priorityTable : List (List (List Char) × String) :=
  [(cylinderKw, "cylinder"), ([s2l "cube"], "cube"), (boxKw, "box"),
   ([s2l "hexagon", s2l "hex"], "hexagon"), ([s2l "triangle"], "triangle"),
   ([s2l "pentagon"], "pentagon"), ([s2l "octagon"], "octagon"), (ellipseKw, "ellipse"),
   ([s2l "circle"], "circle"), ([s2l "square"], "square"),
   ([s2l "rectangle", s2l "rect"], "rectangle"), ([s2l "slot"], "slot"),
   (washerKw, "washer"), (lshapeKw, "lshape"), (crossKw, "cross"), ([s2l "star"], "star")]

/-- The first rule of the priority table whose trigger set matches the
lowercased stripped prompt (spec-side definition of rule selection). -/
def firstMatchingRule (pl : List Char) : Option String :=
  (priorityTable.find? (fun r => containsAny r.1 pl)).map Prod.snd

/-- Dispatch of a selected rule name to its branch parser. -/
def applyRule (p : List Char) (r : String) : Option ParsedShape :=
  if r = "cylinder" then some (cylinderBranch p (detect_units p))
  else if r = "cube" then some (cubeBranch p (detect_units p))
  else if r = "box" then some (boxBranch p (stripWs (lower p)) (detect_units p))
  else if r = "hexagon" then some (hexagonBranch p (detect_units p)
    (containsAny [s2l "2d", s2l "sketch", s2l "draw", s2l "flat"] (stripWs (lower p))))
  else if r = "triangle" then some (triangleBranch p (detect_units p)
    (containsAny [s2l "2d", s2l "sketch", s2l "draw", s2l "flat"] (stripWs (lower p))))
  else if r = "pentagon" then some (pentagonBranch p (detect_units p)
    (containsAny [s2l "2d", s2l "sketch", s2l "draw", s2l "flat"] (stripWs (lower p))))
  else if r = "octagon" then some (octagonBranch p (detect_units p)
    (containsAny [s2l "2d", s2l "sketch", s2l "draw", s2l "flat"] (stripWs (lower p))))
  else if r = "ellipse" then some (ellipseBranch p (detect_units p)
    (containsAny [s2l "2d", s2l "sketch", s2l "draw", s2l "flat"] (stripWs (lower p))))
  else if r = "circle" then some (circleBranch p (detect_units p))
  else if r = "square" then some (squareBranch p (detect_units p))
  else if r = "rectangle" then some (rectangleBranch p (stripWs (lower p)) (detect_units p))
  else if r = "slot" then some (slotBranch p (detect_units p)
    (containsAny [s2l "2d", s2l "sketch", s2l "draw", s2l "flat"] (stripWs (lower p))))
  else if r = "washer" then some (washerBranch p (detect_units p)
    (containsAny [s2l "2d", s2l "sketch", s2l "draw", s2l "flat"] (stripWs (lower p))))
  else if r = "lshape" then some (lshapeBranch p (detect_units p)
    (containsAny [s2l "2d", s2l "sketch", s2l "draw", s2l "flat"] (stripWs (lower p))))
  else if r = "cross" then some (crossBranch p (detect_units p)
    (containsAny [s2l "2d", s2l "sketch", s2l "draw", s2l "flat"] (stripWs (lower p))))
  else if r = "star" then some (starBranch p (stripWs (lower p)) (detect_units p)
    (containsAny [s2l "2d", s2l "sketch", s2l "draw", s2l "flat"] (stripWs (lower p))))
  else none

theorem containsAny_single (w pl : List Char) : containsAny [w] pl = containsSub w pl := by
  simp [containsAny]

theorem containsAny_pair (w1 w2 pl : List Char) :
    containsAny [w1, w2] pl = (containsSub w1 pl || containsSub w2 pl) := by
  simp [containsAny]

/-- C5: `parse_prompt` classifies every prompt by the first matching rule of
the fixed priority table (cylinder first, star last), never by a
most-specific-match heuristic; in particular "cylindrical box" is classified
as a cylinder, not a box. -/
theorem C5_first_match_priority :
    (∀ p, parse_prompt p = (firstMatchingRule (stripWs (lower p))).bind (applyRule p)) ∧
    (parse_prompt (s2l "cylindrical box")).map ParsedShape.shape_type = some "cylinder" := by
  constructor
  · intro p
    refine parse_cases (motive := fun o =>
      o = (firstMatchingRule (stripWs (lower p))).bind (applyRule p)) p
      ?_ ?_ ?_ ?_ ?_ ?_ ?_ ?_ ?_ ?_ ?_ ?_ ?_ ?_ ?_ ?_ ?_
    · intro h1
      simp [firstMatchingRule, priorityTable, List.find?, applyRule,
        containsAny_single, containsAny_pair, h1]
    · intro h1 h2
      simp [firstMatchingRule, priorityTable, List.find?, applyRule,
        containsAny_single, containsAny_pair, h1, h2]
    · intro h1 h2 h3
      simp [firstMatchingRule, priorityTable, List.find?, applyRule,
        containsAny_single, containsAny_pair, h1, h2, h3]
    · intro h1 h2 h3 h4
      simp [firstMatchingRule, priorityTable, List.find?, applyRule,
        containsAny_single, containsAny_pair, h1, h2, h3, h4]
    · intro h1 h2 h3 h4 h5
      simp [firstMatchingRule, priorityTable, List.find?, applyRule,
        containsAny_single, containsAny_pair, h1, h2, h3, h4, h5]
    · intro h1 h2 h3 h4 h5 h6
      simp [firstMatchingRule, priorityTable, List.find?, applyRule,
        containsAny_single, containsAny_pair, h1, h2, h3, h4, h5, h6]
    · intro h1 h2 h3 h4 h5 h6 h7
      simp [firstMatchingRule, priorityTable, List.find?, applyRule,
        containsAny_single, containsAny_pair, h1, h2, h3, h4, h5, h6, h7]
    · intro h1 h2 h3 h4 h5 h6 h7 h8
      simp [firstMatchingRule, priorityTable, List.find?, applyRule,
        containsAny_single, containsAny_pair, h1, h2, h3, h4, h5, h6, h7, h8]
    · intro h1 h2 h3 h4 h5 h6 h7 h8 h9
      simp [firstMatchingRule, priorityTable, List.find?, applyRule,
        containsAny_single, containsAny_pair, h1, h2, h3, h4, h5, h6, h7, h8, h9]
    · intro h1 h2 h3 h4 h5 h6 h7 h8 h9 h10
      simp [firstMatchingRule, priorityTable, List.find?, applyRule,
        containsAny_single, containsAny_pair, h1, h2, h3, h4, h5, h6, h7, h8, h9, h10]
    · intro h1 h2 h3 h4 h5 h6 h7 h8 h9 h10 h11
      simp [firstMatchingRule, priorityTable, List.find?, applyRule,
        containsAny_single, containsAny_pair, h1, h2, h3, h4, h5, h6, h7, h8, h9, h10, h11]
    · intro h1 h2 h3 h4 h5 h6 h7 h8 h9 h10 h11 h12
      simp [firstMatchingRule, priorityTable, List.find?, applyRule,
        containsAny_single, containsAny_pair, h1, h2, h3, h4, h5, h6, h7, h8, h9, h10, h11,
        h12]
    · intro h1 h2 h3 h4 h5 h6 h7 h8 h9 h10 h11 h12 h13
      simp [firstMatchingRule, priorityTable, List.find?, applyRule,
        containsAny_single, containsAny_pair, h1, h2, h3, h4, h5, h6, h7, h8, h9, h10, h11,
        h12, h13]
    · intro h1 h2 h3 h4 h5 h6 h7 h8 h9 h10 h11 h12 h13 h14
      simp [firstMatchingRule, priorityTable, List.find?, applyRule,
        containsAny_single, containsAny_pair, h1, h2, h3, h4, h5, h6, h7, h8, h9, h10, h11,
        h12, h13, h14]
    · intro h1 h2 h3 h4 h5 h6 h7 h8 h9 h10 h11 h12 h13 h14 h15
      simp [firstMatchingRule, priorityTable, List.find?, applyRule,
        containsAny_single, containsAny_pair, h1, h2, h3, h4, h5, h6, h7, h8, h9, h10, h11,
        h12, h13, h14, h15]
    · intro h1 h2 h3 h4 h5 h6 h7 h8 h9 h10 h11 h12 h13 h14 h15 h16
      simp [firstMatchingRule, priorityTable, List.find?, applyRule,
        containsAny_single, containsAny_pair, h1, h2, h3, h4, h5, h6, h7, h8, h9, h10, h11,
        h12, h13, h14, h15, h16]
    · intro h1 h2 h3 h4 h5 h6 h7 h8 h9 h10 h11 h12 h13 h14 h15 h16
      simp [firstMatchingRule, priorityTable, List.find?, applyRule,
        containsAny_single, containsAny_pair, h1, h2, h3, h4, h5, h6, h7, h8, h9, h10, h11,
        h12, h13, h14, h15, h16]
  · decide

/-- C10: a prompt that reaches the square branch and has a successful
height/thickness/extrude extraction parses to a cube whose parameter list is
exactly [size] with the size taken from the square's own size computation
(keyword extraction, else first number, else default 0.02); the extracted
height value is discarded and appears nowhere in the result. -/
theorem C10_square_with_height_is_cube (p : List Char) (hval : Dec)
    (h1 : containsAny cylinderKw (stripWs (lower p)) = false)
    (h2 : containsSub (s2l "cube") (stripWs (lower p)) = false)
    (h3 : containsAny boxKw (stripWs (lower p)) = false)
    (h4 : (containsSub (s2l "hexagon") (stripWs (lower p)) ||
      containsSub (s2l "hex") (stripWs (lower p))) = false)
    (h5 : containsSub (s2l "triangle") (stripWs (lower p)) = false)
    (h6 : containsSub (s2l "pentagon") (stripWs (lower p)) = false)
    (h7 : containsSub (s2l "octagon") (stripWs (lower p)) = false)
    (h8 : containsAny ellipseKw (stripWs (lower p)) = false)
    (h9 : containsSub (s2l "circle") (stripWs (lower p)) = false)
    (h10 : containsSub (s2l "square") (stripWs (lower p)) = true)
    (hh : extract_dimension p [s2l "height", s2l "tall", s2l "h", s2l "thick", s2l "extrude"]
      = some hval)
    (hnz : hval.num ≠ 0) :
    parse_prompt p = some ⟨"cube",
      [("size", pyOrV
        (if !truthy (extract_dimension p [s2l "side", s2l "size", s2l "length", s2l "s"]) &&
            !(extract_all_numbers p).isEmpty
         then some ((extract_all_numbers p).getD 0 ⟨0, 0⟩)
         else extract_dimension p [s2l "side", s2l "size", s2l "length", s2l "s"]) ⟨2, 2⟩)],
      detect_units p, false⟩ := by
  have hsq : parse_prompt p = some (squareBranch p (detect_units p)) := by
    refine parse_cases (motive := fun o => o = some (squareBranch p (detect_units p))) p
      ?_ ?_ ?_ ?_ ?_ ?_ ?_ ?_ ?_ ?_ ?_ ?_ ?_ ?_ ?_ ?_ ?_ <;> intros <;> simp_all
  rw [hsq]
  simp only [squareBranch]
  rw [hh]
  simp [truthy, hnz]

/-- Witness for C10 at the concrete prompt "square height 2mm". -/
theorem C10_witness :
    parse_prompt (s2l "square height 2mm") =
      some ⟨"cube", [("size", ⟨2, 3⟩)], s2l "mm", false⟩ := by
  have h := C10_square_with_height_is_cube (s2l "square height 2mm") ⟨2, 3⟩
    (by decide) (by decide) (by decide) (by decide) (by decide) (by decide) (by decide)
    (by decide) (by decide) (by decide) (by decide) (by decide)
  rw [h]
  decide

end SWPrompt
